import Mathlib

/-!
# jssdk: credential cache and request signing

A shallow embedding of `jssdk/jssdk.go`.

* Go strings and byte slices are Lean strings; `[]byte(s)` is the UTF-8 encoding of `s`.
* `int64` values are integers, wrapped by `int64` where the code does arithmetic.
* A Go `error` is `Option Error` (`none` is `nil`); a pointer to a record is `Option` of the
  record (`none` is the nil pointer).
* Everything outside the package is a parameter, collected in `Env`: the injected `Storage`,
  the wall clock, the HTTP transport, the JSON codec of `encoding/json` and the random source
  of `math/rand`.  SHA-1 and hexadecimal encoding are spelled out, since they are pure functions.
* The effects a call performs are appended to `World.trace`.
-/

namespace jssdk

/-! ## Data model -/

/-- A non-nil Go error, identified by its message. -/
abbrev Error := String

/-- Two's complement wrap-around of an integer to the range of `int64`. -/
def int64 (x : Int) : Int := (x + 9223372036854775808) % 18446744073709551616 - 9223372036854775808

structure accessToken where
  Access_token : String
  Expires_in : Int
  Expire_time : Int
deriving DecidableEq, Repr

structure jsapiTicket where
  Jsapi_ticket : String
  Expires_in : Int
  Expire_time : Int
deriving DecidableEq, Repr

/-- The `Storage` interface, over a backend with states `σ`. A getter returns both of its Go
results, the blob and the error. -/
structure Storage (σ : Type) where
  saveAccessToken : String → σ → Option Error × σ
  saveJsapiTicket : String → σ → Option Error × σ
  getJsapiTicket : σ → (String × Option Error) × σ
  getAccessToken : σ → (String × Option Error) × σ

/-- The fields of `Jssdk` other than `storage`, which lives in `Env`. -/
structure Jssdk where
  accessToken : Option accessToken
  jsspiTicket : Option jsapiTicket
  appId : String
  appSecret : String
deriving DecidableEq, Repr

/-- The value `json.Marshal` encodes at the end of `GetSignPackage`: a string map with exactly
these six keys. -/
structure SignPackage where
  appId : String
  nonceStr : String
  timestamp : String
  url : String
  signature : String
  rawString : String
deriving DecidableEq, Repr

/-- An effect visible outside the process. -/
inductive Event where
  | readAccessToken
  | readJsapiTicket
  | saveAccessToken (blob : String) (err : Option Error)
  | saveJsapiTicket (blob : String) (err : Option Error)
  | httpGet (url : String)
deriving DecidableEq, Repr

/-- The collaborators of the package.
* `unix k`, `unixNano k`: what `time.Now().Unix()` and `time.Now().UnixNano()` give at the
  `k`-th reading of the clock.
* `httpGet k url`: the `k`-th request; `.ok body` is the bytes `ioutil.ReadAll` hands back (its
  own error is dropped by the code), `.error e` a failure of `http.Get`.
* `unmarshal… data cur`: `json.Unmarshal(data, p)` where `p` points to `cur`; it gives the record
  `p` points to afterwards and the error. The result may depend on `cur`: a field that `data`
  does not mention keeps its value, and a record may be changed although an error is returned.
* `marshal…`: `json.Marshal`.
* `rand seed i`: the `i`-th raw draw of `rand.New(rand.NewSource(seed))`. -/
structure Env (σ : Type) where
  storage : Storage σ
  unix : Nat → Int
  unixNano : Nat → Int
  httpGet : Nat → String → Except Error String
  unmarshalAccessToken : String → accessToken → accessToken × Option Error
  unmarshalJsapiTicket : String → jsapiTicket → jsapiTicket × Option Error
  marshalAccessToken : accessToken → Except Error String
  marshalJsapiTicket : jsapiTicket → Except Error String
  rand : Int → Nat → Nat

/-- State outside the `Jssdk` value: the storage backend, how often the clock was read, and the
effects so far, oldest first. -/
structure World (σ : Type) where
  store : σ
  ticks : Nat
  trace : List Event
deriving DecidableEq, Repr

/-- What a call does: it returns, or the goroutine panics. -/
inductive Outcome (α : Type) where
  | ret (a : α)
  | panic (msg : String)
deriving DecidableEq, Repr

def Event.isHttp : Event → Bool
  | .httpGet _ => true
  | _ => false

def Event.isSave : Event → Bool
  | .saveAccessToken _ _ => true
  | .saveJsapiTicket _ _ => true
  | _ => false

/-- Number of network calls in a trace. -/
def netCalls (t : List Event) : Nat := (t.filter Event.isHttp).length

/-- Number of storage writes in a trace. -/
def saveCalls (t : List Event) : Nat := (t.filter Event.isSave).length

def ACCESS_TOKEN_URL (appId appSecret : String) : String :=
  "https://api.weixin.qq.com/cgi-bin/token?grant_type=client_credential&appid=" ++ appId
    ++ "&secret=" ++ appSecret

def JSAPI_TICKET_URL (token : String) : String :=
  "https://api.weixin.qq.com/cgi-bin/ticket/getticket?type=jsapi&access_token=" ++ token

/-- The error `json.Unmarshal` gives for a nil destination. -/
def invalidUnmarshalError : Error := "json: Unmarshal(nil)"

/-- The message of a nil pointer dereference. -/
def nilDereference : String := "invalid memory address or nil pointer dereference"

/-! ## Effects -/

section effects
variable {σ : Type}

/-- A reading `time.Now().Unix()`. -/
def now (env : Env σ) (s : World σ) : Int × World σ :=
  (int64 (env.unix s.ticks), { s with ticks := s.ticks + 1 })

/-- A reading `time.Now().UnixNano()`. -/
def nowNano (env : Env σ) (s : World σ) : Int × World σ :=
  (int64 (env.unixNano s.ticks), { s with ticks := s.ticks + 1 })

/-- A call `http.Get(url)` followed by `ioutil.ReadAll(resp.Body)`. -/
def httpGet (env : Env σ) (url : String) (s : World σ) : Except Error String × World σ :=
  (env.httpGet (netCalls s.trace) url, { s with trace := s.trace ++ [Event.httpGet url] })

def storageGetAccessToken (env : Env σ) (s : World σ) : (String × Option Error) × World σ :=
  let r := env.storage.getAccessToken s.store
  (r.1, { s with store := r.2, trace := s.trace ++ [Event.readAccessToken] })

def storageGetJsapiTicket (env : Env σ) (s : World σ) : (String × Option Error) × World σ :=
  let r := env.storage.getJsapiTicket s.store
  (r.1, { s with store := r.2, trace := s.trace ++ [Event.readJsapiTicket] })

def storageSaveAccessToken (env : Env σ) (blob : String) (s : World σ) : Option Error × World σ :=
  let r := env.storage.saveAccessToken blob s.store
  (r.1, { s with store := r.2, trace := s.trace ++ [Event.saveAccessToken blob r.1] })

def storageSaveJsapiTicket (env : Env σ) (blob : String) (s : World σ) : Option Error × World σ :=
  let r := env.storage.saveJsapiTicket blob s.store
  (r.1, { s with store := r.2, trace := s.trace ++ [Event.saveJsapiTicket blob r.1] })

end effects

/-! ## SHA-1 and hexadecimal encoding (`crypto/sha1`, `encoding/hex`) -/

/-- The bytes of a string. -/
def utf8Bytes (s : String) : List Nat :=
  s.toList.flatMap fun c => (String.utf8EncodeChar c).map UInt8.toNat

def mask32 (x : Nat) : Nat := x % 4294967296

/-- The function `bits.RotateLeft32` on a 32-bit word. -/
def rotl32 (x k : Nat) : Nat := mask32 (x <<< k) ||| (x >>> (32 - k))

/-- Big-endian 32-bit word at the head of a byte list. -/
def be32 (p : List Nat) : Nat :=
  ((p.getD 0 0 * 256 + p.getD 1 0) * 256 + p.getD 2 0) * 256 + p.getD 3 0

/-- The eight bytes of a 64-bit length, most significant first. -/
def putUint64 (n : Nat) : List Nat :=
  (List.range 8).map fun i => (n % 18446744073709551616) >>> (8 * (7 - i)) % 256

/-- The four bytes of a 32-bit word, most significant first. -/
def putUint32 (x : Nat) : List Nat :=
  [x >>> 24 % 256, x >>> 16 % 256, x >>> 8 % 256, x % 256]

/-- Padding of `checkSum`: a one bit, zeros up to 56 mod 64, then the length in bits. -/
def sha1Pad (msg : List Nat) : List Nat :=
  let len := msg.length
  let t := if len % 64 < 56 then 56 - len % 64 else 64 + 56 - len % 64
  msg ++ 128 :: List.replicate (t - 1) 0 ++ putUint64 (len * 8)

/-- The five chaining words. -/
structure Digest where
  h0 : Nat
  h1 : Nat
  h2 : Nat
  h3 : Nat
  h4 : Nat
deriving DecidableEq, Repr

def sha1Init : Digest := ⟨0x67452301, 0xEFCDAB89, 0x98BADCFE, 0x10325476, 0xC3D2E1F0⟩

/-- Working variables of a block: the sixteen-word window and `a … e`. -/
structure Regs where
  w : List Nat
  a : Nat
  b : Nat
  c : Nat
  d : Nat
  e : Nat

/-- Round `i` of `blockGeneric`. -/
def sha1Round (r : Regs) (i : Nat) : Regs :=
  let w :=
    if 16 ≤ i then
      let tmp := r.w.getD ((i - 3) % 16) 0 ^^^ r.w.getD ((i - 8) % 16) 0
        ^^^ r.w.getD ((i - 14) % 16) 0 ^^^ r.w.getD (i % 16) 0
      r.w.set (i % 16) (rotl32 tmp 1)
    else r.w
  let f :=
    if i < 20 then (r.b &&& r.c) ||| ((r.b ^^^ 0xFFFFFFFF) &&& r.d)
    else if i < 40 then r.b ^^^ r.c ^^^ r.d
    else if i < 60 then ((r.b ||| r.c) &&& r.d) ||| (r.b &&& r.c)
    else r.b ^^^ r.c ^^^ r.d
  let k :=
    if i < 20 then 0x5A827999
    else if i < 40 then 0x6ED9EBA1
    else if i < 60 then 0x8F1BBCDC
    else 0xCA62C1D6
  let t := mask32 (rotl32 r.a 5 + f + r.e + w.getD (i % 16) 0 + k)
  ⟨w, t, r.a, rotl32 r.b 30, r.c, r.d⟩

/-- One 64-byte block. -/
def sha1Block (h : Digest) (p : List Nat) : Digest :=
  let w := (List.range 16).map fun i => be32 (p.drop (4 * i))
  let r := (List.range 80).foldl sha1Round ⟨w, h.h0, h.h1, h.h2, h.h3, h.h4⟩
  ⟨mask32 (h.h0 + r.a), mask32 (h.h1 + r.b), mask32 (h.h2 + r.c), mask32 (h.h3 + r.d),
    mask32 (h.h4 + r.e)⟩

/-- All blocks of a padded message; `n` is the number of blocks. -/
def sha1Blocks : Nat → Digest → List Nat → Digest
  | 0, h, _ => h
  | n + 1, h, p => sha1Blocks n (sha1Block h (p.take 64)) (p.drop 64)

/-- The 20-byte SHA-1 digest. -/
def sha1Sum (data : List Nat) : List Nat :=
  let p := sha1Pad data
  let h := sha1Blocks (p.length / 64) sha1Init p
  putUint32 h.h0 ++ putUint32 h.h1 ++ putUint32 h.h2 ++ putUint32 h.h3 ++ putUint32 h.h4

def hextable : List Char := "0123456789abcdef".toList

/-- The function `hex.EncodeToString`. -/
def hexEncodeToString (src : List Nat) : String :=
  String.mk (src.flatMap fun v => [hextable.getD (v / 16) '?', hextable.getD (v % 16) '?'])

/-- The method `Jssdk.sha1`. -/
def sha1 (data : List Nat) : String := hexEncodeToString (sha1Sum data)

/-! ## The package -/

section package
variable {σ : Type}

/-- The constructor `NewJssdk`: both records are allocated and zero. The storage argument (or
the default `_storage` for nil) is the `storage` field of `Env`. -/
def NewJssdk (appId appSecret : String) : Jssdk :=
  { accessToken := some ⟨"", 0, 0⟩
    jsspiTicket := some ⟨"", 0, 0⟩
    appId := appId
    appSecret := appSecret }

/-- The alphabet of `createNonceStr`. -/
def nonceAlphabet : List Char :=
  "0123456789abcdefghijklmnopqrstuvwxyzABCDEFGHIJKLMNOPQRSTUVWXYZ".toList

/-- The loop of `createNonceStr`: iteration `i` appends `bytes[r.Intn(len(bytes))]`; `none` is an
index out of range. `r.Intn(n)` is the raw draw reduced to `[0, n)`. -/
def nonceLoop (draw : Nat → Nat) (bytes : List Char) (length : Int) : Option (List Char) :=
  (List.range length.toNat).foldlM
    (fun result i => (bytes[draw i % bytes.length]?).map fun b => result ++ [b]) []

/-- The method `createNonceStr`. -/
def createNonceStr (env : Env σ) (length : Int) (s : World σ) : Outcome (String × World σ) :=
  let bytes := nonceAlphabet
  let (seed, s1) := nowNano env s
  match nonceLoop (env.rand seed) bytes length with
  | some result => .ret (String.mk result, s1)
  | none => .panic "index out of range"

/-- The method `GetAccessToken`: its two results, the `Jssdk` and the world afterwards. -/
def GetAccessToken (env : Env σ) (w : Jssdk) (s : World σ) :
    (Option accessToken × Option Error) × Jssdk × World σ :=
  -- s, e := w.storage.getAccessToken()
  let (se, s1) := storageGetAccessToken env s
  if se.2 ≠ none ∨ se.1 = "" then ((none, se.2), w, s1) else
  -- json.Unmarshal([]byte(s), w.accessToken)
  match w.accessToken with
  | none => ((none, some invalidUnmarshalError), w, s1)
  | some cur =>
    let (tok1, err) := env.unmarshalAccessToken se.1 cur
    let w1 := { w with accessToken := some tok1 }
    if err ≠ none then ((none, err), w1, s1) else
    let (t, s2) := now env s1
    if tok1.Expire_time > t then ((some tok1, none), w1, s2) else
    let url := ACCESS_TOKEN_URL w1.appId w1.appSecret
    let (resp, s3) := httpGet env url s2
    match resp with
    | .error e => ((none, some e), w1, s3)
    | .ok bytes =>
      let (tok2, err) := env.unmarshalAccessToken bytes tok1
      let w2 := { w1 with accessToken := some tok2 }
      if err ≠ none ∨ w2.accessToken = none then ((none, err), w2, s3) else
      -- w.accessToken.Expire_time = time.Now().Unix() + 7000
      let (t2, s4) := now env s3
      let tok3 := { tok2 with Expire_time := int64 (t2 + 7000) }
      let w3 := { w2 with accessToken := some tok3 }
      match env.marshalAccessToken tok3 with
      | .error e => ((some tok3, some e), w3, s4)
      | .ok tokenStr =>
        let (e, s5) := storageSaveAccessToken env tokenStr s4
        if e ≠ none then ((some tok3, e), w3, s5) else ((some tok3, none), w3, s5)

/-- The method `GetJsapiTicket`. -/
def GetJsapiTicket (env : Env σ) (w : Jssdk) (s : World σ) :
    Outcome ((Option jsapiTicket × Option Error) × Jssdk × World σ) :=
  -- s, e := w.storage.getJsapiTicket()
  let (se, s1) := storageGetJsapiTicket env s
  if se.2 ≠ none ∨ se.1 = "" then .ret ((none, se.2), w, s1) else
  -- json.Unmarshal([]byte(s), w.jsspiTicket)
  match w.jsspiTicket with
  | none => .ret ((none, some invalidUnmarshalError), w, s1)
  | some cur =>
    let (tk1, err) := env.unmarshalJsapiTicket se.1 cur
    let w1 := { w with jsspiTicket := some tk1 }
    if err ≠ none then .ret ((none, err), w1, s1) else
    let (t, s2) := now env s1
    if tk1.Expire_time > t then .ret ((some tk1, none), w1, s2) else
    -- if _, e := w.GetAccessToken(); e != nil && w.accessToken == nil
    let (r, w2, s3) := GetAccessToken env w1 s2
    if r.2 ≠ none ∧ w2.accessToken = none then .ret ((none, r.2), w2, s3) else
    -- fmt.Sprintf(JSAPI_TICKET_URL, w.accessToken.Access_token)
    match w2.accessToken with
    | none => .panic nilDereference
    | some tok =>
      let url := JSAPI_TICKET_URL tok.Access_token
      let (resp, s4) := httpGet env url s3
      match resp with
      | .error e => .ret ((none, some e), w2, s4)
      | .ok bytes =>
        -- json.Unmarshal(bytes, w.jsspiTicket)
        match w2.jsspiTicket with
        | none => .ret ((none, some invalidUnmarshalError), w2, s4)
        | some cur2 =>
          let (tk2, err) := env.unmarshalJsapiTicket bytes cur2
          let w3 := { w2 with jsspiTicket := some tk2 }
          if err ≠ none ∨ w3.jsspiTicket = none then .ret ((none, err), w3, s4) else
          -- w.jsspiTicket.Expire_time = time.Now().Unix() + 7000
          let (t2, s5) := now env s4
          let tk3 := { tk2 with Expire_time := int64 (t2 + 7000) }
          let w4 := { w3 with jsspiTicket := some tk3 }
          match env.marshalJsapiTicket tk3 with
          | .error e => .ret ((some tk3, some e), w4, s5)
          | .ok tokenStr =>
            let (e, s6) := storageSaveJsapiTicket env tokenStr s5
            if e ≠ none then .ret ((some tk3, e), w4, s6) else .ret ((some tk3, none), w4, s6)

/-- The method `GetSignPackage`. The result is the map that the code hands to `json.Marshal`
(`none` for the empty string of the error path); marshalling a string map does not fail. -/
def GetSignPackage (env : Env σ) (w : Jssdk) (url : String) (s : World σ) :
    Outcome ((Option SignPackage × Option Error) × Jssdk × World σ) :=
  match GetJsapiTicket env w s with
  | .panic msg => .panic msg
  | .ret (r, w1, s1) =>
    if r.2 ≠ none then .ret ((none, r.2), w1, s1) else
    let (timestamp, s2) := now env s1
    match createNonceStr env 16 s2 with
    | .panic msg => .panic msg
    | .ret (nonceStr, s3) =>
      match w1.jsspiTicket with
      | none => .panic nilDereference
      | some tk =>
        let str := "jsapi_ticket=" ++ tk.Jsapi_ticket ++ "&noncestr=" ++ nonceStr
          ++ "&timestamp=" ++ toString timestamp ++ "&url=" ++ url
        let signature := sha1 (utf8Bytes str)
        let signPackage : SignPackage :=
          { appId := w1.appId
            nonceStr := nonceStr
            timestamp := toString timestamp
            url := url
            signature := signature
            rawString := str }
        .ret ((some signPackage, none), w1, s3)

end package

/-! ## Vocabulary of the statements -/

section vocabulary
variable {σ : Type}

/-- `blob` is the serialization of the token record `r`: it is what `json.Marshal` gives for `r`,
it is not empty, and `json.Unmarshal` reads `r` back from it whatever the destination held. -/
def SerializesAccessToken (env : Env σ) (blob : String) (r : accessToken) : Prop :=
  env.marshalAccessToken r = .ok blob ∧ blob ≠ "" ∧
    ∀ cur, env.unmarshalAccessToken blob cur = (r, none)

/-- `blob` is the serialization of the ticket record `r`. -/
def SerializesJsapiTicket (env : Env σ) (blob : String) (r : jsapiTicket) : Prop :=
  env.marshalJsapiTicket r = .ok blob ∧ blob ≠ "" ∧
    ∀ cur, env.unmarshalJsapiTicket blob cur = (r, none)

/-- The stored token record can be read and decoded, to `tok1`, and `tok1` has expired at the
clock reading of the expiry check. This covers the absent record: a blob such as the empty
object decodes to whatever the destination held. -/
def TokenExpired (env : Env σ) (w : Jssdk) (s : World σ) (tok1 : accessToken) : Prop :=
  ∃ blob cur, (env.storage.getAccessToken s.store).1 = (blob, none) ∧ blob ≠ "" ∧
    w.accessToken = some cur ∧ env.unmarshalAccessToken blob cur = (tok1, none) ∧
    tok1.Expire_time ≤ int64 (env.unix s.ticks)

/-- `GetAccessToken` goes through a refresh in which the remote fetch and the parse succeed:
the stored record has expired, the token endpoint answers, and its response is decoded without
error, to `tok2`. -/
def TokenRefresh (env : Env σ) (w : Jssdk) (s : World σ) (tok2 : accessToken) : Prop :=
  ∃ tok1 body, TokenExpired env w s tok1 ∧
    env.httpGet (netCalls s.trace) (ACCESS_TOKEN_URL w.appId w.appSecret) = .ok body ∧
    env.unmarshalAccessToken body tok1 = (tok2, none)

/-- The stored ticket record can be read and decoded, to `tk1`, and `tk1` has expired. -/
def TicketExpired (env : Env σ) (w : Jssdk) (s : World σ) (tk1 : jsapiTicket) : Prop :=
  ∃ blob cur, (env.storage.getJsapiTicket s.store).1 = (blob, none) ∧ blob ≠ "" ∧
    w.jsspiTicket = some cur ∧ env.unmarshalJsapiTicket blob cur = (tk1, none) ∧
    tk1.Expire_time ≤ int64 (env.unix s.ticks)

/-- The world in which `GetJsapiTicket` makes its nested call of `GetAccessToken`: the ticket
blob has been read and the clock has been read once. -/
def afterTicketCheck (env : Env σ) (s : World σ) : World σ :=
  { store := (env.storage.getJsapiTicket s.store).2, ticks := s.ticks + 1,
    trace := s.trace ++ [Event.readJsapiTicket] }

/-- `GetJsapiTicket` goes through a refresh in which the remote fetch and the parse succeed:
the stored ticket has expired, the nested `GetAccessToken` leaves the world `s3` and a token in
memory, the ticket endpoint answers, and its response is decoded without error, to `tk2`. -/
def TicketRefresh (env : Env σ) (w : Jssdk) (s s3 : World σ) (tk2 : jsapiTicket) : Prop :=
  ∃ tk1 r w2 tok body, TicketExpired env w s tk1 ∧
    GetAccessToken env { w with jsspiTicket := some tk1 } (afterTicketCheck env s) = (r, w2, s3) ∧
    w2.accessToken = some tok ∧
    env.httpGet (netCalls s3.trace) (JSAPI_TICKET_URL tok.Access_token) = .ok body ∧
    env.unmarshalJsapiTicket body tk1 = (tk2, none)

/-- The response `body` carries the token value `v`: decoding it sets `Access_token` to `v`,
whatever the destination held. -/
def CarriesAccessToken (env : Env σ) (body v : String) : Prop :=
  ∀ cur, (env.unmarshalAccessToken body cur).1.Access_token = v

/-- The response `body` carries no token value: decoding it leaves `Access_token` as it was. -/
def OmitsAccessToken (env : Env σ) (body : String) : Prop :=
  ∀ cur, (env.unmarshalAccessToken body cur).1.Access_token = cur.Access_token

/-- The token response `body` declares the lifetime `n`: decoding it sets `Expires_in` to `n`,
whatever the destination held. -/
def DeclaresTokenExpiresIn (env : Env σ) (body : String) (n : Int) : Prop :=
  ∀ cur, (env.unmarshalAccessToken body cur).1.Expires_in = n

/-- The response `body` carries the ticket value `v`. -/
def CarriesJsapiTicket (env : Env σ) (body v : String) : Prop :=
  ∀ cur, (env.unmarshalJsapiTicket body cur).1.Jsapi_ticket = v

/-- The response `body` carries no ticket value: decoding it leaves `Jsapi_ticket` as it was. -/
def OmitsJsapiTicket (env : Env σ) (body : String) : Prop :=
  ∀ cur, (env.unmarshalJsapiTicket body cur).1.Jsapi_ticket = cur.Jsapi_ticket

/-- The ticket response `body` declares the lifetime `n`. -/
def DeclaresTicketExpiresIn (env : Env σ) (body : String) (n : Int) : Prop :=
  ∀ cur, (env.unmarshalJsapiTicket body cur).1.Expires_in = n

end vocabulary

/-! ## The default storage

`_storage` keeps one file per credential. The operating system is a disk on which a path holds
a file or not and which is writable or read-only: `os.Stat` and `ioutil.ReadFile` fail exactly on
a missing file, `ioutil.WriteFile` exactly on a read-only disk. -/

structure Disk where
  files : List (String × String)
  readOnly : Bool
deriving DecidableEq, Repr

def osStat (d : Disk) (filename : String) : Option Error :=
  if (d.files.lookup filename).isSome then none
  else some ("stat " ++ filename ++ ": no such file or directory")

def readFile (d : Disk) (filename : String) : String × Option Error :=
  match d.files.lookup filename with
  | some bytes => (bytes, none)
  | none => ("", some ("open " ++ filename ++ ": no such file or directory"))

def writeFile (filename bytes : String) (d : Disk) : Option Error × Disk :=
  if d.readOnly then (some ("open " ++ filename ++ ": read-only file system"), d)
  else (none, { d with files := (filename, bytes) :: d.files.filter fun f => f.1 ≠ filename })

structure _storage where
  accessTokenPath : String
  jsapiTicketPath : String

def _storage.save (_ : _storage) (filename bytes : String) (d : Disk) : Option Error × Disk :=
  writeFile filename bytes d

def _storage.read (st : _storage) (filename : String) (d : Disk) :
    (String × Option Error) × Disk :=
  let d1 := if osStat d filename ≠ none then (st.save filename "\x7b\x7d" d).2 else d
  (readFile d1 filename, d1)

/-- The four methods by which `_storage` implements `Storage`. -/
def _storage.toStorage (st : _storage) : Storage Disk where
  saveAccessToken := fun bytes d => st.save st.accessTokenPath bytes d
  getAccessToken := fun d => st.read st.accessTokenPath d
  saveJsapiTicket := fun bytes d => st.save st.jsapiTicketPath bytes d
  getJsapiTicket := fun d => st.read st.jsapiTicketPath d

/-- The storage `NewJssdk` installs when given nil. -/
def defaultStorage : _storage :=
  { accessTokenPath := "access_token.json", jsapiTicketPath := "jsapi_ticket.json" }

/-! ## A small JSON codec

Used to instantiate `Env` in concrete scenarios. It reads and writes flat objects whose values
are strings without escapes or integers, and on those it behaves as `encoding/json` does for the
two record types: keys are matched without regard to (ASCII) case, unknown keys are skipped,
absent keys leave the field as it is, a later duplicate wins, and after a value of the wrong
type the remaining members are still decoded. Any other input is reported as a syntax error. -/

namespace miniJson

inductive Value where
  | str (s : String)
  | num (n : Int)
deriving DecidableEq, Repr

def isSpace (c : Char) : Bool := c = ' ' || c = '\t' || c = '\n' || c = '\r'

def skipSpace : List Char → List Char
  | [] => []
  | c :: cs => if isSpace c then skipSpace cs else c :: cs

/-- The rest of a string literal, after its opening quote. -/
def readString : List Char → List Char → Option (String × List Char)
  | [], _ => none
  | c :: cs, acc =>
    if c = '"' then some (String.mk acc.reverse, cs)
    else if c = '\\' ∨ c.toNat < 32 then none
    else readString cs (c :: acc)

def readDigits : List Char → Nat → Nat × List Char
  | [], n => (n, [])
  | c :: cs, n => if c.isDigit then readDigits cs (10 * n + (c.toNat - 48)) else (n, c :: cs)

/-- A natural number literal without superfluous leading zero. -/
def readNat : List Char → Option (Nat × List Char)
  | [] => none
  | '0' :: c :: cs => if c.isDigit then none else some (0, c :: cs)
  | c :: cs => if c.isDigit then some (readDigits (c :: cs) 0) else none

def readValue : List Char → Option (Value × List Char)
  | '"' :: cs => (readString cs []).map fun r => (Value.str r.1, r.2)
  | '-' :: cs => (readNat cs).map fun r => (Value.num (-(r.1 : Int)), r.2)
  | cs => (readNat cs).map fun r => (Value.num r.1, r.2)

/-- The members of an object, after its opening brace or a comma, up to the closing brace. -/
def readMembers : Nat → List Char → Option (List (String × Value) × List Char)
  | 0, _ => none
  | fuel + 1, cs =>
    match skipSpace cs with
    | '"' :: cs1 =>
      match readString cs1 [] with
      | none => none
      | some (key, cs2) =>
        match skipSpace cs2 with
        | ':' :: cs3 =>
          match readValue (skipSpace cs3) with
          | none => none
          | some (v, cs4) =>
            match skipSpace cs4 with
            | ',' :: cs5 => (readMembers fuel cs5).map fun r => ((key, v) :: r.1, r.2)
            | '\x7d' :: cs5 => some ([(key, v)], cs5)
            | _ => none
        | _ => none
    | _ => none

def parseObject (s : String) : Option (List (String × Value)) :=
  match skipSpace s.toList with
  | '\x7b' :: cs =>
    match skipSpace cs with
    | '\x7d' :: rest => if skipSpace rest = [] then some [] else none
    | _ =>
      match readMembers s.length cs with
      | some (ms, rest) => if skipSpace rest = [] then some ms else none
      | none => none
  | _ => none

def syntaxError : Error := "invalid character looking for beginning of value"

def typeError (field : String) : Error := "json: cannot unmarshal into Go struct field " ++ field

def fitsInt64 (n : Int) : Bool := -9223372036854775808 ≤ n && n < 9223372036854775808

def setAccessToken (acc : accessToken × Option Error) (m : String × Value) :
    accessToken × Option Error :=
  let key := String.mk (m.1.toList.map Char.toLower)
  if key = "access_token" then
    match m.2 with
    | .str v => ({ acc.1 with Access_token := v }, acc.2)
    | .num _ => (acc.1, acc.2 <|> some (typeError "access_token"))
  else if key = "expires_in" then
    match m.2 with
    | .num n =>
      if fitsInt64 n then ({ acc.1 with Expires_in := n }, acc.2)
      else (acc.1, acc.2 <|> some (typeError "expires_in"))
    | .str _ => (acc.1, acc.2 <|> some (typeError "expires_in"))
  else if key = "expire_time" then
    match m.2 with
    | .num n =>
      if fitsInt64 n then ({ acc.1 with Expire_time := n }, acc.2)
      else (acc.1, acc.2 <|> some (typeError "expire_time"))
    | .str _ => (acc.1, acc.2 <|> some (typeError "expire_time"))
  else acc

def setJsapiTicket (acc : jsapiTicket × Option Error) (m : String × Value) :
    jsapiTicket × Option Error :=
  let key := String.mk (m.1.toList.map Char.toLower)
  if key = "ticket" then
    match m.2 with
    | .str v => ({ acc.1 with Jsapi_ticket := v }, acc.2)
    | .num _ => (acc.1, acc.2 <|> some (typeError "ticket"))
  else if key = "expires_in" then
    match m.2 with
    | .num n =>
      if fitsInt64 n then ({ acc.1 with Expires_in := n }, acc.2)
      else (acc.1, acc.2 <|> some (typeError "expires_in"))
    | .str _ => (acc.1, acc.2 <|> some (typeError "expires_in"))
  else if key = "expire_time" then
    match m.2 with
    | .num n =>
      if fitsInt64 n then ({ acc.1 with Expire_time := n }, acc.2)
      else (acc.1, acc.2 <|> some (typeError "expire_time"))
    | .str _ => (acc.1, acc.2 <|> some (typeError "expire_time"))
  else acc

def unmarshalAccessToken (data : String) (cur : accessToken) : accessToken × Option Error :=
  match parseObject data with
  | none => (cur, some syntaxError)
  | some ms => ms.foldl setAccessToken (cur, none)

def unmarshalJsapiTicket (data : String) (cur : jsapiTicket) : jsapiTicket × Option Error :=
  match parseObject data with
  | none => (cur, some syntaxError)
  | some ms => ms.foldl setJsapiTicket (cur, none)

/-- Characters a JSON string literal holds as they are. -/
def plainChar (c : Char) : Bool :=
  32 ≤ c.toNat && c.toNat < 127 && c ≠ '"' && c ≠ '\\' && c ≠ '<' && c ≠ '>' && c ≠ '&'

def quote (s : String) : Except Error String :=
  if s.toList.all plainChar then .ok ("\"" ++ s ++ "\"") else .error "unsupported character"

def marshalAccessToken (r : accessToken) : Except Error String :=
  match quote r.Access_token with
  | .error e => .error e
  | .ok q => .ok ("\x7b\"access_token\":" ++ q ++ ",\"expires_in\":" ++ toString r.Expires_in
      ++ ",\"expire_time\":" ++ toString r.Expire_time ++ "\x7d")

def marshalJsapiTicket (r : jsapiTicket) : Except Error String :=
  match quote r.Jsapi_ticket with
  | .error e => .error e
  | .ok q => .ok ("\x7b\"ticket\":" ++ q ++ ",\"expires_in\":" ++ toString r.Expires_in
      ++ ",\"expire_time\":" ++ toString r.Expire_time ++ "\x7d")

end miniJson

/-- The environment of the scenarios: the default storage on a `Disk`, the small codec, a given
clock and transport, and a fixed random source. -/
def scenarioEnv (clock : Nat → Int) (http : Nat → String → Except Error String) : Env Disk where
  storage := defaultStorage.toStorage
  unix := clock
  unixNano := fun k => clock k * 1000000000
  httpGet := http
  unmarshalAccessToken := miniJson.unmarshalAccessToken
  unmarshalJsapiTicket := miniJson.unmarshalJsapiTicket
  marshalAccessToken := miniJson.marshalAccessToken
  marshalJsapiTicket := miniJson.marshalJsapiTicket
  rand := fun seed i => (seed.toNat % 4294967296 + i + 1) * 2654435761 % 4294967296 / 64

/-! ## Scenarios

Concrete environments on which the statements below are instantiated: application `wx123` with
secret `sec456`, the default storage on a disk, a clock that starts at 1700000000 and advances
one second per reading. -/

/-- A remote platform that answers the token endpoint with `tokenBody` and the ticket endpoint
(for token `TOK1`) with `ticketBody`. -/
def wechat (tokenBody ticketBody : String) : Nat → String → Except Error String := fun _ url =>
  if url = ACCESS_TOKEN_URL "wx123" "sec456" then .ok tokenBody
  else if url = JSAPI_TICKET_URL "TOK1" then .ok ticketBody
  else .error "no such host"

def tokenBody7200 : String := "\x7b\"access_token\":\"TOK1\",\"expires_in\":7200\x7d"

def ticketBody7200 : String :=
  "\x7b\"errcode\":0,\"errmsg\":\"ok\",\"ticket\":\"T1\",\"expires_in\":7200\x7d"

def clock1700 : Nat → Int := fun k => 1700000000 + k

/-- The platform answering with lifetimes of 7200 seconds. -/
def env7200 : Env Disk := scenarioEnv clock1700 (wechat tokenBody7200 ticketBody7200)

/-- A world at its beginning, on a given disk. -/
def startOn (d : Disk) : World Disk := { store := d, ticks := 0, trace := [] }

def emptyDisk : Disk := { files := [], readOnly := false }

def tokenBlobAt (t : Int) : String :=
  "\x7b\"access_token\":\"TOK1\",\"expires_in\":7200,\"expire_time\":" ++ toString t ++ "\x7d"

def ticketBlobAt (t : Int) : String :=
  "\x7b\"ticket\":\"T1\",\"expires_in\":7200,\"expire_time\":" ++ toString t ++ "\x7d"

/-- First signing on an empty disk: what `GetSignPackage` returns in `env7200`. -/
def coldPackage : SignPackage :=
  { appId := "wx123"
    nonceStr := "gRs5FiTu6HkVv8Jk"
    timestamp := "1700000004"
    url := "http://a.b/c?d=1"
    signature := "21adebca3498f6d7cefdd1282013e71a7dafb923"
    rawString := "jsapi_ticket=T1&noncestr=gRs5FiTu6HkVv8Jk&timestamp=1700000004&url=http://a.b/c?d=1" }

def coldJssdk : Jssdk :=
  { accessToken := some ⟨"TOK1", 7200, 1700007002⟩
    jsspiTicket := some ⟨"T1", 7200, 1700007003⟩
    appId := "wx123"
    appSecret := "sec456" }

def coldWorld : World Disk :=
  { store :=
      { files := [("jsapi_ticket.json", ticketBlobAt 1700007003),
          ("access_token.json", tokenBlobAt 1700007002)]
        readOnly := false }
    ticks := 6
    trace := [Event.readJsapiTicket, Event.readAccessToken,
      Event.httpGet (ACCESS_TOKEN_URL "wx123" "sec456"),
      Event.saveAccessToken (tokenBlobAt 1700007002) none,
      Event.httpGet (JSAPI_TICKET_URL "TOK1"),
      Event.saveJsapiTicket (ticketBlobAt 1700007003) none] }

/-- A disk that holds a ticket record valid until 1700009999 and no token record. -/
def warmDisk : Disk :=
  { files := [("jsapi_ticket.json", ticketBlobAt 1700009999)], readOnly := false }

/-- Signing with the ticket of `warmDisk`: what `GetSignPackage` returns in `env7200`. -/
def warmPackage : SignPackage :=
  { appId := "wx123"
    nonceStr := "w7KlXy9MmXAbNoZC"
    timestamp := "1700000001"
    url := "https://example.com/"
    signature := "e7e5cad5c7b50693a87245eb3496bd28864f55f9"
    rawString := "jsapi_ticket=T1&noncestr=w7KlXy9MmXAbNoZC&timestamp=1700000001&url=https://example.com/" }

def warmJssdk : Jssdk :=
  { accessToken := some ⟨"", 0, 0⟩
    jsspiTicket := some ⟨"T1", 7200, 1700009999⟩
    appId := "wx123"
    appSecret := "sec456" }

def warmWorld : World Disk := { store := warmDisk, ticks := 3, trace := [Event.readJsapiTicket] }

/-- A disk that holds a token record valid until 1700009999 and no ticket record. -/
def tokenDisk : Disk :=
  { files := [("access_token.json", tokenBlobAt 1700009999)], readOnly := false }

/-- A disk on which both files exist and are empty. -/
def blankDisk : Disk :=
  { files := [("access_token.json", ""), ("jsapi_ticket.json", "")], readOnly := false }

/-- A disk without files that cannot be written: every read fails. -/
def lockedDisk : Disk := { files := [], readOnly := true }

/-- A disk that cannot be written and holds an empty token record and an empty ticket record. -/
def staleLockedDisk : Disk :=
  { files := [("access_token.json", "\x7b\x7d"), ("jsapi_ticket.json", "\x7b\x7d")],
    readOnly := true }

/-- A disk with a valid token record and an empty ticket record. -/
def tokenOnlyDisk : Disk :=
  { files := [("access_token.json", tokenBlobAt 1700009999), ("jsapi_ticket.json", "\x7b\x7d")],
    readOnly := false }

/-- The platform declaring lifetimes of 1800 seconds. -/
def env1800 : Env Disk :=
  scenarioEnv clock1700
    (wechat "\x7b\"access_token\":\"TOK1\",\"expires_in\":1800\x7d"
      "\x7b\"ticket\":\"T1\",\"expires_in\":1800\x7d")

/-- The world in which `GetJsapiTicket`, started on `tokenOnlyDisk`, finds itself when its
nested `GetAccessToken` has returned the valid token record. -/
def tokenOnlyNested : World Disk :=
  { store := tokenOnlyDisk, ticks := 2,
    trace := [Event.readJsapiTicket, Event.readAccessToken] }

/-- The `Jssdk` at that point. -/
def tokenOnlyJssdk : Jssdk :=
  { accessToken := some ⟨"TOK1", 7200, 1700009999⟩
    jsspiTicket := some ⟨"", 0, 0⟩
    appId := "wx123"
    appSecret := "sec456" }

/-- The same point on `staleLockedDisk`: the nested call has fetched a token and failed to
save it. -/
def staleLockedNested : World Disk :=
  { store := staleLockedDisk, ticks := 3,
    trace := [Event.readJsapiTicket, Event.readAccessToken,
      Event.httpGet (ACCESS_TOKEN_URL "wx123" "sec456"),
      Event.saveAccessToken (tokenBlobAt 1700007002)
        (some "open access_token.json: read-only file system")] }

def staleLockedJssdk : Jssdk :=
  { accessToken := some ⟨"TOK1", 7200, 1700007002⟩
    jsspiTicket := some ⟨"", 0, 0⟩
    appId := "wx123"
    appSecret := "sec456" }

/-- A platform whose token endpoint cannot be reached, while the ticket endpoint answers a
request that carries the empty token. -/
def tokenEndpointDown : Nat → String → Except Error String := fun _ url =>
  if url = JSAPI_TICKET_URL "" then .ok ticketBody7200
  else .error "dial tcp: connection refused"

def envTokenDown : Env Disk := scenarioEnv clock1700 tokenEndpointDown

/-- The reply of the platform to a request it refuses: an error code and no credential. -/
def errcodeBody : String := "\x7b\"errcode\":40013,\"errmsg\":\"invalid appid\"\x7d"

/-- The platform refusing every request. -/
def envErrcode : Env Disk := scenarioEnv clock1700 fun _ _ => .ok errcodeBody

/-- A disk that cannot be written and holds the expired token `OLD`. -/
def oldLockedDisk : Disk :=
  { files := [("access_token.json",
      "\x7b\"access_token\":\"OLD\",\"expires_in\":7200,\"expire_time\":1600000000\x7d")]
    readOnly := true }

/-! ## Lemmas on the signer -/

set_option maxRecDepth 1000000

section signer
variable {σ : Type}

theorem nonceLoop_foldlM (draw : Nat → Nat) (bytes : List Char) (hb : 0 < bytes.length)
    (is : List Nat) (acc : List Char) :
    ∃ l, is.foldlM (fun result i => (bytes[draw i % bytes.length]?).map fun b => result ++ [b])
        acc = some (acc ++ l) ∧ l.length = is.length ∧ ∀ c ∈ l, c ∈ bytes := by
  induction is generalizing acc with
  | nil => exact ⟨[], by simp⟩
  | cons i is ih =>
    have hi : draw i % bytes.length < bytes.length := Nat.mod_lt _ hb
    obtain ⟨l, hl, hlen, hmem⟩ := ih (acc ++ [bytes[draw i % bytes.length]])
    refine ⟨bytes[draw i % bytes.length] :: l, ?_, by simp [hlen], ?_⟩
    · simp only [List.foldlM_cons, List.getElem?_eq_getElem hi, Option.map_some',
        Option.bind_eq_bind, Option.some_bind]
      rw [hl]; simp
    · intro c hc
      rcases List.mem_cons.1 hc with rfl | hc
      · exact List.getElem_mem _
      · exact hmem c hc

theorem nonceLoop_spec (draw : Nat → Nat) (length : Int) :
    ∃ l, nonceLoop draw nonceAlphabet length = some l ∧ l.length = length.toNat ∧
      ∀ c ∈ l, c ∈ nonceAlphabet := by
  obtain ⟨l, hl, hlen, hmem⟩ :=
    nonceLoop_foldlM draw nonceAlphabet (by decide) (List.range length.toNat) []
  exact ⟨l, by simpa [nonceLoop] using hl, by simpa using hlen, hmem⟩

theorem createNonceStr_spec (env : Env σ) (length : Int) (s : World σ) :
    ∃ str, createNonceStr env length s = .ret (str, (nowNano env s).2) ∧
      str.length = length.toNat ∧ ∀ c ∈ str.toList, c ∈ nonceAlphabet := by
  obtain ⟨l, hl, hlen, hmem⟩ := nonceLoop_spec (env.rand (nowNano env s).1) length
  refine ⟨String.mk l, ?_, by simpa using hlen, by simpa using hmem⟩
  simp only [createNonceStr, hl]

/-- What a package returned by `GetSignPackage` is made of. -/
theorem GetSignPackage_ret_some (env : Env σ) (w : Jssdk) (url : String) (s : World σ)
    (pkg : SignPackage) (e : Option Error) (w' : Jssdk) (s' : World σ)
    (h : GetSignPackage env w url s = .ret ((some pkg, e), w', s')) :
    ∃ r s1 nonceStr tk,
      GetJsapiTicket env w s = .ret ((r, none), w', s1) ∧
      createNonceStr env 16 (now env s1).2 = .ret (nonceStr, s') ∧
      w'.jsspiTicket = some tk ∧ e = none ∧
      pkg =
        { appId := w'.appId
          nonceStr := nonceStr
          timestamp := toString (now env s1).1
          url := url
          signature := sha1 (utf8Bytes ("jsapi_ticket=" ++ tk.Jsapi_ticket ++ "&noncestr="
            ++ nonceStr ++ "&timestamp=" ++ toString (now env s1).1 ++ "&url=" ++ url))
          rawString := "jsapi_ticket=" ++ tk.Jsapi_ticket ++ "&noncestr=" ++ nonceStr
            ++ "&timestamp=" ++ toString (now env s1).1 ++ "&url=" ++ url } := by
  unfold GetSignPackage at h
  split at h
  · exact absurd h (by simp)
  · rename_i r w1 s1 hj
    obtain ⟨rv, re⟩ := r
    by_cases hre : re = none
    · subst hre
      simp only [ne_eq, not_true_eq_false, ↓reduceIte] at h
      split at h
      · exact absurd h (by simp)
      · rename_i nonceStr s3 hn
        split at h
        · exact absurd h (by simp)
        · rename_i tk htk
          simp only [Outcome.ret.injEq, Prod.mk.injEq, Option.some.injEq] at h
          obtain ⟨⟨hp, he⟩, hw, hs⟩ := h
          subst hw hs
          exact ⟨rv, s1, nonceStr, tk, hj, hn, htk, he.symm, hp.symm⟩
    · simp [hre] at h

theorem sha1Sum_length (data : List Nat) : (sha1Sum data).length = 20 := by
  simp [sha1Sum, putUint32]

theorem sha1Sum_lt (data : List Nat) : ∀ v ∈ sha1Sum data, v < 256 := by
  intro v hv
  simp only [sha1Sum, putUint32, List.mem_append, List.mem_cons, List.mem_singleton,
    List.not_mem_nil, or_false] at hv
  have h256 : ∀ x : Nat, x % 256 < 256 := fun x => Nat.mod_lt _ (by decide)
  rcases hv with (((h | h) | h) | h) | h <;> rcases h with h | h | h | h <;> subst h <;>
    exact h256 _

theorem hextable_getD_mem (i : Nat) (hi : i < 16) : hextable.getD i '?' ∈ hextable := by
  interval_cases i <;> decide

theorem hexEncodeToString_length (src : List Nat) :
    (hexEncodeToString src).length = 2 * src.length := by
  induction src with
  | nil => rfl
  | cons v src ih =>
    simp only [hexEncodeToString, String.length, List.flatMap_cons, List.length_append,
      List.length_cons, List.length_nil] at ih ⊢
    omega

theorem hexEncodeToString_mem (src : List Nat) (h : ∀ v ∈ src, v < 256) :
    ∀ c ∈ (hexEncodeToString src).toList, c ∈ hextable := by
  intro c hc
  simp only [hexEncodeToString, String.toList, List.mem_flatMap, List.mem_cons,
    List.mem_singleton, List.not_mem_nil, or_false] at hc
  obtain ⟨v, hv, rfl | rfl⟩ := hc
  · exact hextable_getD_mem _ (by have := h v hv; omega)
  · exact hextable_getD_mem _ (Nat.mod_lt _ (by decide))

/-- The embedding of SHA-1 on the test vectors of FIPS 180. -/
theorem sha1_test_vectors :
    sha1 (utf8Bytes "") = "da39a3ee5e6b4b0d3255bfef95601890afd80709" ∧
    sha1 (utf8Bytes "abc") = "a9993e364706816aba3e25717850c26c9cd0d89d" ∧
    sha1 (utf8Bytes "abcdbcdecdefdefgefghfghighijhijkijkljklmklmnlmnomnopnopq")
      = "84983e441c3bd26ebaae4aa1f95129e5e54670f1" := by
  refine ⟨?_, ?_, ?_⟩ <;> decide

end signer

/-! ## Lemmas on the credential cache -/

section cache
variable {σ : Type}

@[simp] theorem netCalls_nil : netCalls [] = 0 := rfl

@[simp] theorem netCalls_append (t u : List Event) : netCalls (t ++ u) = netCalls t + netCalls u := by
  simp [netCalls]

@[simp] theorem netCalls_cons_httpGet (url : String) (t : List Event) :
    netCalls (Event.httpGet url :: t) = netCalls t + 1 := by
  simp [netCalls, Event.isHttp]

@[simp] theorem netCalls_cons_readAccessToken (t : List Event) :
    netCalls (Event.readAccessToken :: t) = netCalls t := by
  simp [netCalls, Event.isHttp]

@[simp] theorem netCalls_cons_readJsapiTicket (t : List Event) :
    netCalls (Event.readJsapiTicket :: t) = netCalls t := by
  simp [netCalls, Event.isHttp]

@[simp] theorem netCalls_cons_saveAccessToken (b : String) (e : Option Error) (t : List Event) :
    netCalls (Event.saveAccessToken b e :: t) = netCalls t := by
  simp [netCalls, Event.isHttp]

@[simp] theorem netCalls_cons_saveJsapiTicket (b : String) (e : Option Error) (t : List Event) :
    netCalls (Event.saveJsapiTicket b e :: t) = netCalls t := by
  simp [netCalls, Event.isHttp]

@[simp] theorem saveCalls_nil : saveCalls [] = 0 := rfl

@[simp] theorem saveCalls_append (t u : List Event) :
    saveCalls (t ++ u) = saveCalls t + saveCalls u := by
  simp [saveCalls]

@[simp] theorem saveCalls_cons_httpGet (url : String) (t : List Event) :
    saveCalls (Event.httpGet url :: t) = saveCalls t := by
  simp [saveCalls, Event.isSave]

@[simp] theorem saveCalls_cons_readAccessToken (t : List Event) :
    saveCalls (Event.readAccessToken :: t) = saveCalls t := by
  simp [saveCalls, Event.isSave]

@[simp] theorem saveCalls_cons_readJsapiTicket (t : List Event) :
    saveCalls (Event.readJsapiTicket :: t) = saveCalls t := by
  simp [saveCalls, Event.isSave]

@[simp] theorem saveCalls_cons_saveAccessToken (b : String) (e : Option Error) (t : List Event) :
    saveCalls (Event.saveAccessToken b e :: t) = saveCalls t + 1 := by
  simp [saveCalls, Event.isSave]

@[simp] theorem saveCalls_cons_saveJsapiTicket (b : String) (e : Option Error) (t : List Event) :
    saveCalls (Event.saveJsapiTicket b e :: t) = saveCalls t + 1 := by
  simp [saveCalls, Event.isSave]

/-- `GetAccessToken` when the storage read fails or gives an empty blob. -/
theorem GetAccessToken_read_failed (env : Env σ) (w : Jssdk) (s : World σ)
    (h : (env.storage.getAccessToken s.store).1.2 ≠ none ∨
      (env.storage.getAccessToken s.store).1.1 = "") :
    GetAccessToken env w s =
      ((none, (env.storage.getAccessToken s.store).1.2), w,
        { store := (env.storage.getAccessToken s.store).2, ticks := s.ticks,
          trace := s.trace ++ [Event.readAccessToken] }) := by
  simp only [GetAccessToken, storageGetAccessToken]
  rw [if_pos h]

/-- `GetAccessToken` when the stored record is still valid. -/
theorem GetAccessToken_hit (env : Env σ) (w : Jssdk) (s : World σ) (blob : String)
    (cur tok1 : accessToken)
    (hread : (env.storage.getAccessToken s.store).1 = (blob, none)) (hne : blob ≠ "")
    (hcur : w.accessToken = some cur)
    (hparse : env.unmarshalAccessToken blob cur = (tok1, none))
    (hvalid : tok1.Expire_time > int64 (env.unix s.ticks)) :
    GetAccessToken env w s =
      ((some tok1, none), { w with accessToken := some tok1 },
        { store := (env.storage.getAccessToken s.store).2, ticks := s.ticks + 1,
          trace := s.trace ++ [Event.readAccessToken] }) := by
  simp only [GetAccessToken, storageGetAccessToken, hread, hcur, hparse, now]
  simp [hne, hvalid]

/-- `GetAccessToken` when the stored record has expired: the request and what follows. -/
theorem GetAccessToken_expired (env : Env σ) (w : Jssdk) (s : World σ) (blob : String)
    (cur tok1 : accessToken)
    (hread : (env.storage.getAccessToken s.store).1 = (blob, none)) (hne : blob ≠ "")
    (hcur : w.accessToken = some cur)
    (hparse : env.unmarshalAccessToken blob cur = (tok1, none))
    (hexp : tok1.Expire_time ≤ int64 (env.unix s.ticks)) :
    GetAccessToken env w s =
      match env.httpGet (netCalls s.trace) (ACCESS_TOKEN_URL w.appId w.appSecret) with
      | .error e =>
        ((none, some e), { w with accessToken := some tok1 },
          { store := (env.storage.getAccessToken s.store).2, ticks := s.ticks + 1,
            trace := s.trace ++ [Event.readAccessToken,
              Event.httpGet (ACCESS_TOKEN_URL w.appId w.appSecret)] })
      | .ok body =>
        match env.unmarshalAccessToken body tok1 with
        | (tok2, some e) =>
          ((none, some e), { w with accessToken := some tok2 },
            { store := (env.storage.getAccessToken s.store).2, ticks := s.ticks + 1,
              trace := s.trace ++ [Event.readAccessToken,
                Event.httpGet (ACCESS_TOKEN_URL w.appId w.appSecret)] })
        | (tok2, none) =>
          match env.marshalAccessToken
            { tok2 with Expire_time := int64 (int64 (env.unix (s.ticks + 1)) + 7000) } with
          | .error e =>
            ((some { tok2 with Expire_time := int64 (int64 (env.unix (s.ticks + 1)) + 7000) },
                some e),
              { w with accessToken := some { tok2 with Expire_time := int64 (int64 (env.unix (s.ticks + 1)) + 7000) } },
              { store := (env.storage.getAccessToken s.store).2, ticks := s.ticks + 2,
                trace := s.trace ++ [Event.readAccessToken,
                  Event.httpGet (ACCESS_TOKEN_URL w.appId w.appSecret)] })
          | .ok tokenStr =>
            ((some { tok2 with Expire_time := int64 (int64 (env.unix (s.ticks + 1)) + 7000) },
                (env.storage.saveAccessToken tokenStr (env.storage.getAccessToken s.store).2).1),
              { w with accessToken := some { tok2 with Expire_time := int64 (int64 (env.unix (s.ticks + 1)) + 7000) } },
              { store :=
                  (env.storage.saveAccessToken tokenStr (env.storage.getAccessToken s.store).2).2,
                ticks := s.ticks + 2,
                trace := s.trace ++ [Event.readAccessToken,
                  Event.httpGet (ACCESS_TOKEN_URL w.appId w.appSecret),
                  Event.saveAccessToken tokenStr
                    (env.storage.saveAccessToken tokenStr
                      (env.storage.getAccessToken s.store).2).1] }) := by
  have hexp' : ¬ tok1.Expire_time > int64 (env.unix s.ticks) := not_lt.mpr hexp
  rcases env with ⟨st, unix, unixNano, http, umT, umJ, mT, mJ, rand⟩
  simp only at hread hparse hexp'
  simp only [GetAccessToken, storageGetAccessToken, hread, hcur, hparse, now, httpGet,
    storageSaveAccessToken]
  simp only [hne, hexp', ne_eq, not_true_eq_false, or_self, ↓reduceIte, netCalls_append,
    netCalls_cons_readAccessToken, netCalls_nil, Nat.add_zero]
  cases http (netCalls s.trace) (ACCESS_TOKEN_URL w.appId w.appSecret) with
  | error e => simp
  | ok body =>
    simp only
    rcases umT body tok1 with ⟨tok2, _ | e⟩
    · simp only [reduceCtorEq, or_self, ↓reduceIte, not_true_eq_false]
      cases mT { tok2 with Expire_time := int64 (int64 (unix (s.ticks + 1)) + 7000) } with
      | error e => simp
      | ok tokenStr =>
        simp only [List.append_assoc, List.singleton_append]
        split <;> simp_all
    · simp

/-- What `GetAccessToken` never touches, and how far its effects go: the ticket record and the
credentials stay, a nil token pointer stays nil and a non-nil one non-nil, and the trace grows by
the storage read followed by at most one request, to the token endpoint, and no ticket event. -/
theorem GetAccessToken_frame (env : Env σ) (w : Jssdk) (s : World σ) :
    (GetAccessToken env w s).2.1.jsspiTicket = w.jsspiTicket ∧
    (GetAccessToken env w s).2.1.appId = w.appId ∧
    (GetAccessToken env w s).2.1.appSecret = w.appSecret ∧
    ((GetAccessToken env w s).2.1.accessToken = none ↔ w.accessToken = none) ∧
    ∃ ext, (GetAccessToken env w s).2.2.trace = s.trace ++ Event.readAccessToken :: ext ∧
      (netCalls ext = 0 ∨
        (netCalls ext = 1 ∧ Event.httpGet (ACCESS_TOKEN_URL w.appId w.appSecret) ∈ ext)) ∧
      saveCalls ext ≤ 1 := by
  rcases env with ⟨st, unix, unixNano, http, umT, umJ, mT, mJ, rand⟩
  simp only [GetAccessToken, storageGetAccessToken, now, httpGet, storageSaveAccessToken]
  repeat' split
  all_goals simp_all

/-- `GetJsapiTicket` when the storage read fails or gives an empty blob. -/
theorem GetJsapiTicket_read_failed (env : Env σ) (w : Jssdk) (s : World σ)
    (h : (env.storage.getJsapiTicket s.store).1.2 ≠ none ∨
      (env.storage.getJsapiTicket s.store).1.1 = "") :
    GetJsapiTicket env w s =
      .ret ((none, (env.storage.getJsapiTicket s.store).1.2), w,
        { store := (env.storage.getJsapiTicket s.store).2, ticks := s.ticks,
          trace := s.trace ++ [Event.readJsapiTicket] }) := by
  simp only [GetJsapiTicket, storageGetJsapiTicket]
  rw [if_pos h]

/-- `GetJsapiTicket` when the stored record is still valid. -/
theorem GetJsapiTicket_hit (env : Env σ) (w : Jssdk) (s : World σ) (blob : String)
    (cur tk1 : jsapiTicket)
    (hread : (env.storage.getJsapiTicket s.store).1 = (blob, none)) (hne : blob ≠ "")
    (hcur : w.jsspiTicket = some cur)
    (hparse : env.unmarshalJsapiTicket blob cur = (tk1, none))
    (hvalid : tk1.Expire_time > int64 (env.unix s.ticks)) :
    GetJsapiTicket env w s =
      .ret ((some tk1, none), { w with jsspiTicket := some tk1 },
        { store := (env.storage.getJsapiTicket s.store).2, ticks := s.ticks + 1,
          trace := s.trace ++ [Event.readJsapiTicket] }) := by
  simp only [GetJsapiTicket, storageGetJsapiTicket, hread, hcur, hparse, now]
  simp [hne, hvalid]

/-- `GetJsapiTicket` when the stored record has expired: the nested `GetAccessToken`, whose
results are `r`, `w2`, `s3`, then the request and what follows. -/
theorem GetJsapiTicket_expired (env : Env σ) (w : Jssdk) (s : World σ) (blob : String)
    (cur tk1 : jsapiTicket)
    (hread : (env.storage.getJsapiTicket s.store).1 = (blob, none)) (hne : blob ≠ "")
    (hcur : w.jsspiTicket = some cur)
    (hparse : env.unmarshalJsapiTicket blob cur = (tk1, none))
    (hexp : tk1.Expire_time ≤ int64 (env.unix s.ticks))
    (r : Option accessToken × Option Error) (w2 : Jssdk) (s3 : World σ)
    (hin : GetAccessToken env { w with jsspiTicket := some tk1 }
      { store := (env.storage.getJsapiTicket s.store).2, ticks := s.ticks + 1,
        trace := s.trace ++ [Event.readJsapiTicket] } = (r, w2, s3)) :
    GetJsapiTicket env w s =
      if r.2 ≠ none ∧ w2.accessToken = none then .ret ((none, r.2), w2, s3) else
      match w2.accessToken with
      | none => .panic nilDereference
      | some tok =>
        match env.httpGet (netCalls s3.trace) (JSAPI_TICKET_URL tok.Access_token) with
        | .error e =>
          .ret ((none, some e), w2,
            { store := s3.store, ticks := s3.ticks,
              trace := s3.trace ++ [Event.httpGet (JSAPI_TICKET_URL tok.Access_token)] })
        | .ok body =>
          match env.unmarshalJsapiTicket body tk1 with
          | (tk2, some e) =>
            .ret ((none, some e), { w2 with jsspiTicket := some tk2 },
              { store := s3.store, ticks := s3.ticks,
                trace := s3.trace ++ [Event.httpGet (JSAPI_TICKET_URL tok.Access_token)] })
          | (tk2, none) =>
            match env.marshalJsapiTicket
              { tk2 with Expire_time := int64 (int64 (env.unix s3.ticks) + 7000) } with
            | .error e =>
              .ret ((some { tk2 with Expire_time := int64 (int64 (env.unix s3.ticks) + 7000) },
                  some e),
                { w2 with jsspiTicket := some { tk2 with Expire_time := int64 (int64 (env.unix s3.ticks) + 7000) } },
                { store := s3.store, ticks := s3.ticks + 1,
                  trace := s3.trace ++ [Event.httpGet (JSAPI_TICKET_URL tok.Access_token)] })
            | .ok tokenStr =>
              .ret ((some { tk2 with Expire_time := int64 (int64 (env.unix s3.ticks) + 7000) },
                  (env.storage.saveJsapiTicket tokenStr s3.store).1),
                { w2 with jsspiTicket := some { tk2 with Expire_time := int64 (int64 (env.unix s3.ticks) + 7000) } },
                { store := (env.storage.saveJsapiTicket tokenStr s3.store).2,
                  ticks := s3.ticks + 1,
                  trace := s3.trace ++ [Event.httpGet (JSAPI_TICKET_URL tok.Access_token),
                    Event.saveJsapiTicket tokenStr
                      (env.storage.saveJsapiTicket tokenStr s3.store).1] }) := by
  have hexp' : ¬ tk1.Expire_time > int64 (env.unix s.ticks) := not_lt.mpr hexp
  have hfr := (GetAccessToken_frame env { w with jsspiTicket := some tk1 }
      { store := (env.storage.getJsapiTicket s.store).2, ticks := s.ticks + 1,
        trace := s.trace ++ [Event.readJsapiTicket] }).1
  rw [hin] at hfr
  simp only at hfr
  rcases env with ⟨st, unix, unixNano, http, umT, umJ, mT, mJ, rand⟩
  simp only at hread hparse hexp' hin
  simp only [GetJsapiTicket, storageGetJsapiTicket, hread, hcur, hparse, now, httpGet,
    storageSaveJsapiTicket]
  simp only [hne, hexp', ne_eq, not_true_eq_false, or_self, ↓reduceIte, hin, hfr]
  by_cases hc : ¬ r.2 = none ∧ w2.accessToken = none
  · rw [if_pos hc, if_pos hc]
  · rw [if_neg hc, if_neg hc]
    cases w2.accessToken with
    | none => rfl
    | some tok =>
      simp only
      cases http (netCalls s3.trace) (JSAPI_TICKET_URL tok.Access_token) with
      | error e => simp
      | ok body =>
        simp only
        rcases umJ body tk1 with ⟨tk2, _ | e⟩
        · simp only [reduceCtorEq, or_self, ↓reduceIte, not_true_eq_false]
          cases mJ { tk2 with Expire_time := int64 (int64 (unix s3.ticks) + 7000) } with
          | error e => simp
          | ok tokenStr =>
            simp only [List.append_assoc, List.singleton_append]
            split <;> simp_all
        · simp

theorem int64_of_lt (x : Int) (h1 : -9223372036854775808 ≤ x) (h2 : x < 9223372036854775808) :
    int64 x = x := by
  unfold int64; omega

theorem int64_range (x : Int) :
    -9223372036854775808 ≤ int64 x ∧ int64 x < 9223372036854775808 := by
  unfold int64; omega

/-- Adding 7000 to a clock reading does not wrap unless the reading is within 7000 seconds of
the largest `int64`. -/
theorem int64_add_7000 (x : Int) (h : int64 x + 7000 < 9223372036854775808) :
    int64 (int64 x + 7000) = int64 x + 7000 :=
  int64_of_lt _ (by have := (int64_range x).1; omega) h

/-- `GetAccessToken` on a refresh whose fetch and parse succeed. -/
theorem GetAccessToken_refresh (env : Env σ) (w : Jssdk) (s : World σ) (tok2 : accessToken)
    (h : TokenRefresh env w s tok2) :
    GetAccessToken env w s =
      match env.marshalAccessToken
        { tok2 with Expire_time := int64 (int64 (env.unix (s.ticks + 1)) + 7000) } with
      | .error e =>
        ((some { tok2 with Expire_time := int64 (int64 (env.unix (s.ticks + 1)) + 7000) },
            some e),
          { w with accessToken := some { tok2 with Expire_time := int64 (int64 (env.unix (s.ticks + 1)) + 7000) } },
          { store := (env.storage.getAccessToken s.store).2, ticks := s.ticks + 2,
            trace := s.trace ++ [Event.readAccessToken,
              Event.httpGet (ACCESS_TOKEN_URL w.appId w.appSecret)] })
      | .ok tokenStr =>
        ((some { tok2 with Expire_time := int64 (int64 (env.unix (s.ticks + 1)) + 7000) },
            (env.storage.saveAccessToken tokenStr (env.storage.getAccessToken s.store).2).1),
          { w with accessToken := some { tok2 with Expire_time := int64 (int64 (env.unix (s.ticks + 1)) + 7000) } },
          { store :=
              (env.storage.saveAccessToken tokenStr (env.storage.getAccessToken s.store).2).2,
            ticks := s.ticks + 2,
            trace := s.trace ++ [Event.readAccessToken,
              Event.httpGet (ACCESS_TOKEN_URL w.appId w.appSecret),
              Event.saveAccessToken tokenStr
                (env.storage.saveAccessToken tokenStr
                  (env.storage.getAccessToken s.store).2).1] }) := by
  obtain ⟨tok1, body, ⟨blob, cur, hread, hne, hcur, hparse, hexp⟩, hhttp, hresp⟩ := h
  rw [GetAccessToken_expired env w s blob cur tok1 hread hne hcur hparse hexp]
  simp only [hhttp, hresp]

/-- `GetJsapiTicket` on a refresh whose fetch and parse succeed. -/
theorem GetJsapiTicket_refresh (env : Env σ) (w : Jssdk) (s s3 : World σ) (tk2 : jsapiTicket)
    (h : TicketRefresh env w s s3 tk2) :
    ∃ (w2 : Jssdk) (url : String),
    GetJsapiTicket env w s =
      match env.marshalJsapiTicket
        { tk2 with Expire_time := int64 (int64 (env.unix s3.ticks) + 7000) } with
      | .error e =>
        .ret ((some { tk2 with Expire_time := int64 (int64 (env.unix s3.ticks) + 7000) },
            some e),
          { w2 with jsspiTicket := some { tk2 with Expire_time := int64 (int64 (env.unix s3.ticks) + 7000) } },
          { store := s3.store, ticks := s3.ticks + 1,
            trace := s3.trace ++ [Event.httpGet url] })
      | .ok tokenStr =>
        .ret ((some { tk2 with Expire_time := int64 (int64 (env.unix s3.ticks) + 7000) },
            (env.storage.saveJsapiTicket tokenStr s3.store).1),
          { w2 with jsspiTicket := some { tk2 with Expire_time := int64 (int64 (env.unix s3.ticks) + 7000) } },
          { store := (env.storage.saveJsapiTicket tokenStr s3.store).2,
            ticks := s3.ticks + 1,
            trace := s3.trace ++ [Event.httpGet url,
              Event.saveJsapiTicket tokenStr
                (env.storage.saveJsapiTicket tokenStr s3.store).1] }) := by
  obtain ⟨tk1, r, w2, tok, body, ⟨blob, cur, hread, hne, hcur, hparse, hexp⟩, hin, htok, hhttp,
    hresp⟩ := h
  refine ⟨w2, JSAPI_TICKET_URL tok.Access_token, ?_⟩
  rw [GetJsapiTicket_expired env w s blob cur tk1 hread hne hcur hparse hexp r w2 s3 hin]
  simp only [htok, hhttp, hresp, reduceCtorEq, and_false, ↓reduceIte]

/-- With a nil token pointer `GetAccessToken` does nothing but read the storage. -/
theorem GetAccessToken_nil (env : Env σ) (w : Jssdk) (s : World σ) (h : w.accessToken = none) :
    (GetAccessToken env w s).2.2.trace = s.trace ++ [Event.readAccessToken] := by
  rcases env with ⟨st, unix, unixNano, http, umT, umJ, mT, mJ, rand⟩
  simp only [GetAccessToken, storageGetAccessToken, h]
  split <;> rfl

/-- What `GetAccessToken` does once the stored record is found expired: one request to the token
endpoint, then at most a write; a record returned without error has been written. -/
theorem GetAccessToken_expired_effects (env : Env σ) (w : Jssdk) (s : World σ)
    (tok1 : accessToken) (h : TokenExpired env w s tok1) :
    ∃ r w' s' rest, GetAccessToken env w s = (r, w', s') ∧
      s'.trace = s.trace ++ Event.readAccessToken ::
        Event.httpGet (ACCESS_TOKEN_URL w.appId w.appSecret) :: rest ∧
      netCalls rest = 0 ∧
      ∀ rec, r = (some rec, none) →
        ∃ b, env.marshalAccessToken rec = .ok b ∧
          env.storage.saveAccessToken b (env.storage.getAccessToken s.store).2
            = (none, s'.store) ∧
          rest = [Event.saveAccessToken b none] := by
  obtain ⟨blob, cur, hread, hne, hcur, hparse, hexp⟩ := h
  rw [GetAccessToken_expired env w s blob cur tok1 hread hne hcur hparse hexp]
  cases env.httpGet (netCalls s.trace) (ACCESS_TOKEN_URL w.appId w.appSecret) with
  | error e => exact ⟨_, _, _, [], rfl, rfl, rfl, fun rec h => by simp at h⟩
  | ok body =>
    simp only
    rcases env.unmarshalAccessToken body tok1 with ⟨tok2, _ | e⟩
    · simp only
      cases hm : env.marshalAccessToken
          { tok2 with Expire_time := int64 (int64 (env.unix (s.ticks + 1)) + 7000) } with
      | error e => simp only; exact ⟨_, _, _, [], rfl, rfl, rfl, fun rec h => by simp at h⟩
      | ok b =>
        simp only
        refine ⟨_, _, _, [Event.saveAccessToken b _], rfl, rfl, by simp, fun rec h => ?_⟩
        simp only [Prod.mk.injEq, Option.some.injEq] at h
        obtain ⟨h1, h2⟩ := h
        subst h1
        exact ⟨b, hm, Prod.ext h2 rfl, by rw [h2]⟩
    · simp only
      exact ⟨_, _, _, [], rfl, rfl, rfl, fun rec h => by simp at h⟩

/-- What `GetJsapiTicket` does once the stored ticket is found expired and a token is in memory
after the nested `GetAccessToken`: one request to the ticket endpoint with that token, then at
most a write; a record returned without error has been written. -/
theorem GetJsapiTicket_expired_effects (env : Env σ) (w : Jssdk) (s : World σ)
    (tk1 : jsapiTicket) (h : TicketExpired env w s tk1)
    (r0 : Option accessToken × Option Error) (w2 : Jssdk) (s3 : World σ) (tok : accessToken)
    (hin : GetAccessToken env { w with jsspiTicket := some tk1 } (afterTicketCheck env s)
      = (r0, w2, s3))
    (htok : w2.accessToken = some tok) :
    ∃ r w' s' rest, GetJsapiTicket env w s = .ret (r, w', s') ∧
      s'.trace = s3.trace ++ Event.httpGet (JSAPI_TICKET_URL tok.Access_token) :: rest ∧
      netCalls rest = 0 ∧
      ∀ rec, r = (some rec, none) →
        ∃ b, env.marshalJsapiTicket rec = .ok b ∧
          env.storage.saveJsapiTicket b s3.store = (none, s'.store) ∧
          rest = [Event.saveJsapiTicket b none] := by
  obtain ⟨blob, cur, hread, hne, hcur, hparse, hexp⟩ := h
  rw [GetJsapiTicket_expired env w s blob cur tk1 hread hne hcur hparse hexp r0 w2 s3 hin]
  simp only [htok, reduceCtorEq, and_false, ↓reduceIte]
  cases env.httpGet (netCalls s3.trace) (JSAPI_TICKET_URL tok.Access_token) with
  | error e => exact ⟨_, _, _, [], rfl, rfl, rfl, fun rec h => by simp at h⟩
  | ok body =>
    simp only
    rcases env.unmarshalJsapiTicket body tk1 with ⟨tk2, _ | e⟩
    · simp only
      cases hm : env.marshalJsapiTicket
          { tk2 with Expire_time := int64 (int64 (env.unix s3.ticks) + 7000) } with
      | error e => simp only; exact ⟨_, _, _, [], rfl, rfl, rfl, fun rec h => by simp at h⟩
      | ok b =>
        simp only
        refine ⟨_, _, _, [Event.saveJsapiTicket b _], rfl, rfl, by simp, fun rec h => ?_⟩
        simp only [Prod.mk.injEq, Option.some.injEq] at h
        obtain ⟨h1, h2⟩ := h
        subst h1
        exact ⟨b, hm, Prod.ext h2 rfl, by rw [h2]⟩
    · simp only
      exact ⟨_, _, _, [], rfl, rfl, rfl, fun rec h => by simp at h⟩

/-- `GetJsapiTicket` on a refresh whose fetch and parse succeed, with the nested call, the
token used and the response named. -/
theorem GetJsapiTicket_refresh_on (env : Env σ) (w : Jssdk) (s : World σ) (tk1 : jsapiTicket)
    (r0 : Option accessToken × Option Error) (w2 : Jssdk) (s3 : World σ) (tok : accessToken)
    (body : String) (tk2 : jsapiTicket)
    (hexp : TicketExpired env w s tk1)
    (hin : GetAccessToken env { w with jsspiTicket := some tk1 } (afterTicketCheck env s)
      = (r0, w2, s3))
    (htok : w2.accessToken = some tok)
    (hhttp : env.httpGet (netCalls s3.trace) (JSAPI_TICKET_URL tok.Access_token) = .ok body)
    (hresp : env.unmarshalJsapiTicket body tk1 = (tk2, none)) :
    GetJsapiTicket env w s =
      match env.marshalJsapiTicket
        { tk2 with Expire_time := int64 (int64 (env.unix s3.ticks) + 7000) } with
      | .error e =>
        .ret ((some { tk2 with Expire_time := int64 (int64 (env.unix s3.ticks) + 7000) },
            some e),
          { w2 with jsspiTicket := some { tk2 with Expire_time := int64 (int64 (env.unix s3.ticks) + 7000) } },
          { store := s3.store, ticks := s3.ticks + 1,
            trace := s3.trace ++ [Event.httpGet (JSAPI_TICKET_URL tok.Access_token)] })
      | .ok tokenStr =>
        .ret ((some { tk2 with Expire_time := int64 (int64 (env.unix s3.ticks) + 7000) },
            (env.storage.saveJsapiTicket tokenStr s3.store).1),
          { w2 with jsspiTicket := some { tk2 with Expire_time := int64 (int64 (env.unix s3.ticks) + 7000) } },
          { store := (env.storage.saveJsapiTicket tokenStr s3.store).2,
            ticks := s3.ticks + 1,
            trace := s3.trace ++ [Event.httpGet (JSAPI_TICKET_URL tok.Access_token),
              Event.saveJsapiTicket tokenStr
                (env.storage.saveJsapiTicket tokenStr s3.store).1] }) := by
  obtain ⟨blob, cur, hread, hne, hcur, hparse, hx⟩ := hexp
  rw [GetJsapiTicket_expired env w s blob cur tk1 hread hne hcur hparse hx r0 w2 s3 hin]
  simp only [htok, hhttp, hresp, reduceCtorEq, and_false, ↓reduceIte]

/-- With the token pointer set, as it is from `NewJssdk` on, an error of the nested
`GetAccessToken` does not stop `GetJsapiTicket` on an expired ticket: its next effect is the
request to the ticket endpoint, with the token value that is in memory at that point. -/
theorem GetJsapiTicket_after_failed_token (env : Env σ) (w : Jssdk) (s : World σ)
    (tk1 : jsapiTicket) (rv : Option accessToken) (e : Error) (w2 : Jssdk) (s3 : World σ)
    (hw : w.accessToken ≠ none) (hexp : TicketExpired env w s tk1)
    (hin : GetAccessToken env { w with jsspiTicket := some tk1 } (afterTicketCheck env s)
      = ((rv, some e), w2, s3)) :
    ∃ tok r w' s' rest, w2.accessToken = some tok ∧
      GetJsapiTicket env w s = .ret (r, w', s') ∧
      s'.trace = s3.trace ++ Event.httpGet (JSAPI_TICKET_URL tok.Access_token) :: rest ∧
      netCalls rest = 0 := by
  have hfr := GetAccessToken_frame env { w with jsspiTicket := some tk1 } (afterTicketCheck env s)
  rw [hin] at hfr
  obtain ⟨-, -, -, hnil, -⟩ := hfr
  simp only at hnil
  have hw2 : w2.accessToken ≠ none := fun h => hw (hnil.1 h)
  obtain ⟨tok, htok⟩ := Option.ne_none_iff_exists'.1 hw2
  obtain ⟨r, w', s', rest, hrun, htr, hrest, -⟩ :=
    GetJsapiTicket_expired_effects env w s tk1 hexp _ w2 s3 tok hin htok
  exact ⟨tok, r, w', s', rest, htok, hrun, htr, hrest⟩

/-- With both record pointers set, as `NewJssdk` sets them, `GetJsapiTicket` returns (it does
not panic) and leaves both pointers set and the credentials as they were. -/
theorem GetJsapiTicket_returns (env : Env σ) (w : Jssdk) (s : World σ)
    (h1 : w.accessToken ≠ none) (h2 : w.jsspiTicket ≠ none) :
    ∃ r w' s', GetJsapiTicket env w s = .ret (r, w', s') ∧ w'.accessToken ≠ none ∧
      w'.jsspiTicket ≠ none ∧ w'.appId = w.appId ∧ w'.appSecret = w.appSecret := by
  obtain ⟨cur, hcur⟩ := Option.ne_none_iff_exists'.1 h2
  by_cases hread : (env.storage.getJsapiTicket s.store).1.2 ≠ none ∨
      (env.storage.getJsapiTicket s.store).1.1 = ""
  · exact ⟨_, _, _, GetJsapiTicket_read_failed env w s hread, h1, h2, rfl, rfl⟩
  · rcases hr : (env.storage.getJsapiTicket s.store).1 with ⟨blob, e⟩
    rw [hr] at hread
    simp only [ne_eq, not_or, not_not] at hread
    obtain ⟨he, hne⟩ := hread
    subst he
    rcases hp : env.unmarshalJsapiTicket blob cur with ⟨tk1, _ | e⟩
    · by_cases hv : tk1.Expire_time > int64 (env.unix s.ticks)
      · exact ⟨_, _, _, GetJsapiTicket_hit env w s blob cur tk1 hr hne hcur hp hv, h1, by simp,
          rfl, rfl⟩
      · have hx : TicketExpired env w s tk1 := ⟨blob, cur, hr, hne, hcur, hp, not_lt.1 hv⟩
        have hfr := GetAccessToken_frame env { w with jsspiTicket := some tk1 }
          (afterTicketCheck env s)
        rcases hg : GetAccessToken env { w with jsspiTicket := some tk1 }
          (afterTicketCheck env s) with ⟨r0, w2, s3⟩
        rw [hg] at hfr
        obtain ⟨hj, ha, hs, hnil, -⟩ := hfr
        simp only at hj ha hs hnil
        have hw2 : w2.accessToken ≠ none := fun h0 => h1 (hnil.1 h0)
        obtain ⟨tok, htok⟩ := Option.ne_none_iff_exists'.1 hw2
        rw [GetJsapiTicket_expired env w s blob cur tk1 hr hne hcur hp (not_lt.1 hv) r0 w2 s3 hg]
        simp only [htok, reduceCtorEq, and_false, ↓reduceIte]
        cases env.httpGet (netCalls s3.trace) (JSAPI_TICKET_URL tok.Access_token) with
        | error e => exact ⟨_, _, _, rfl, hw2, by rw [hj]; simp, ha, hs⟩
        | ok body =>
          simp only
          rcases env.unmarshalJsapiTicket body tk1 with ⟨tk2, _ | e⟩
          · simp only
            cases env.marshalJsapiTicket
                { tk2 with Expire_time := int64 (int64 (env.unix s3.ticks) + 7000) } with
            | error e => exact ⟨_, _, _, rfl, by simp, by simp, ha, hs⟩
            | ok b => exact ⟨_, _, _, rfl, by simp, by simp, ha, hs⟩
          · exact ⟨_, _, _, rfl, by simp, by simp, ha, hs⟩
    · refine ⟨(none, some e), { w with jsspiTicket := some tk1 },
        { store := (env.storage.getJsapiTicket s.store).2, ticks := s.ticks,
          trace := s.trace ++ [Event.readJsapiTicket] }, ?_, h1, by simp, rfl, rfl⟩
      simp only [GetJsapiTicket, storageGetJsapiTicket, hr, hcur, hp]
      simp [hne]

/-- On a `Jssdk` built by `NewJssdk`, and after any number of calls, `GetSignPackage` returns:
there is no nil dereference and no index out of range. -/
theorem GetSignPackage_returns (env : Env σ) (w : Jssdk) (url : String) (s : World σ)
    (h1 : w.accessToken ≠ none) (h2 : w.jsspiTicket ≠ none) :
    ∃ r w' s', GetSignPackage env w url s = .ret (r, w', s') ∧ w'.accessToken ≠ none ∧
      w'.jsspiTicket ≠ none ∧ w'.appId = w.appId ∧ w'.appSecret = w.appSecret := by
  obtain ⟨r, w1, s1, hj, ha, ht, hid, hsec⟩ := GetJsapiTicket_returns env w s h1 h2
  obtain ⟨tk, htk⟩ := Option.ne_none_iff_exists'.1 ht
  obtain ⟨str, hstr, -, -⟩ := createNonceStr_spec env 16 (now env s1).2
  simp only [GetSignPackage, hj]
  by_cases he : r.2 = none
  · simp only [he, ne_eq, not_true_eq_false, ↓reduceIte, hstr, htk]
    exact ⟨_, _, _, rfl, ha, ht, hid, hsec⟩
  · simp only [ne_eq, he, not_false_eq_true, ↓reduceIte]
    exact ⟨_, _, _, rfl, ha, ht, hid, hsec⟩

end cache

/-! ## The claims -/

section claims
variable {σ : Type}

/-- C1: whenever `GetSignPackage url` returns a package, its `rawString` is
`jsapi_ticket=<ticket>&noncestr=<nonce>&timestamp=<timestamp>&url=<url>` in this order, where the
ticket is the one the cache holds after `GetJsapiTicket`, the nonce, timestamp and url are the
package's own `nonceStr`, `timestamp` and `url`, the url is the argument and the timestamp is the
decimal form of the clock reading taken after the ticket was obtained. -/
theorem C1_rawString_field_order (env : Env σ) (w : Jssdk) (url : String) (s : World σ)
    (pkg : SignPackage) (e : Option Error) (w' : Jssdk) (s' : World σ)
    (h : GetSignPackage env w url s = .ret ((some pkg, e), w', s')) :
    ∃ r w1 s1 tk,
      GetJsapiTicket env w s = .ret (r, w1, s1) ∧ w1.jsspiTicket = some tk ∧
      pkg.url = url ∧ pkg.timestamp = toString (int64 (env.unix s1.ticks)) ∧
      pkg.rawString = "jsapi_ticket=" ++ tk.Jsapi_ticket ++ "&noncestr=" ++ pkg.nonceStr
        ++ "&timestamp=" ++ pkg.timestamp ++ "&url=" ++ pkg.url := by
  obtain ⟨r, s1, nonceStr, tk, hj, -, htk, -, rfl⟩ := GetSignPackage_ret_some env w url s pkg e w' s' h
  exact ⟨(r, none), w', s1, tk, hj, htk, rfl, rfl, rfl⟩

/-- C1 on the first signing with an empty disk. -/
theorem C1_rawString_field_order_witness :
    ∃ r w1 s1 tk,
      GetJsapiTicket env7200 (NewJssdk "wx123" "sec456") (startOn emptyDisk) = .ret (r, w1, s1) ∧
      w1.jsspiTicket = some tk ∧
      coldPackage.url = "http://a.b/c?d=1" ∧
      coldPackage.timestamp = toString (int64 (env7200.unix s1.ticks)) ∧
      coldPackage.rawString = "jsapi_ticket=" ++ tk.Jsapi_ticket ++ "&noncestr="
        ++ coldPackage.nonceStr ++ "&timestamp=" ++ coldPackage.timestamp ++ "&url="
        ++ coldPackage.url :=
  C1_rawString_field_order env7200 (NewJssdk "wx123" "sec456") "http://a.b/c?d=1"
    (startOn emptyDisk) coldPackage none coldJssdk coldWorld (by decide)

/-- C2: the `signature` of a package returned by `GetSignPackage` is the hexadecimal encoding of
the SHA-1 digest of the bytes of that package's own `rawString`; it has exactly 40 characters,
each of them one of `0123456789abcdef`. -/
theorem C2_signature_is_sha1_hex (env : Env σ) (w : Jssdk) (url : String) (s : World σ)
    (pkg : SignPackage) (e : Option Error) (w' : Jssdk) (s' : World σ)
    (h : GetSignPackage env w url s = .ret ((some pkg, e), w', s')) :
    pkg.signature = hexEncodeToString (sha1Sum (utf8Bytes pkg.rawString)) ∧
      pkg.signature.length = 40 ∧
      ∀ c ∈ pkg.signature.toList, c ∈ "0123456789abcdef".toList := by
  obtain ⟨r, s1, nonceStr, tk, -, -, -, -, rfl⟩ := GetSignPackage_ret_some env w url s pkg e w' s' h
  refine ⟨rfl, ?_, ?_⟩
  · simp only [sha1, hexEncodeToString_length, sha1Sum_length]
  · exact hexEncodeToString_mem _ (sha1Sum_lt _)

/-- C2 on a signing served from a cached ticket. -/
theorem C2_signature_is_sha1_hex_witness :
    warmPackage.signature = hexEncodeToString (sha1Sum (utf8Bytes warmPackage.rawString)) ∧
      warmPackage.signature.length = 40 ∧
      ∀ c ∈ warmPackage.signature.toList, c ∈ "0123456789abcdef".toList :=
  C2_signature_is_sha1_hex env7200 (NewJssdk "wx123" "sec456") "https://example.com/"
    (startOn warmDisk) warmPackage none warmJssdk warmWorld (by decide)

/-- C9: for every random source and every length `n ≥ 0`, `createNonceStr n` returns (no index
is out of range) a string of exactly `n` characters, each from the alphabet of 62 distinct
characters `0-9a-zA-Z`; and the `nonceStr` of every package `GetSignPackage` returns has exactly
16 characters from that alphabet. -/
theorem C9_nonce_length_and_alphabet (env : Env σ) :
    (nonceAlphabet.length = 62 ∧ nonceAlphabet.Nodup ∧
      ∀ c ∈ nonceAlphabet, c.isDigit ∨ c.isLower ∨ c.isUpper) ∧
    (∀ (n : Int) (s : World σ), 0 ≤ n →
      ∃ str s', createNonceStr env n s = .ret (str, s') ∧ (str.length : Int) = n ∧
        ∀ c ∈ str.toList, c ∈ nonceAlphabet) ∧
    (∀ (w : Jssdk) (url : String) (s : World σ) (pkg : SignPackage) (e : Option Error)
      (w' : Jssdk) (s' : World σ),
      GetSignPackage env w url s = .ret ((some pkg, e), w', s') →
        pkg.nonceStr.length = 16 ∧ ∀ c ∈ pkg.nonceStr.toList, c ∈ nonceAlphabet) := by
  refine ⟨⟨by decide, by decide, by decide⟩, ?_, ?_⟩
  · intro n s hn
    obtain ⟨str, hstr, hlen, hmem⟩ := createNonceStr_spec env n s
    exact ⟨str, _, hstr, by rw [hlen]; exact Int.toNat_of_nonneg hn, hmem⟩
  · intro w url s pkg e w' s' h
    obtain ⟨r, s1, nonceStr, tk, -, hn, -, -, rfl⟩ :=
      GetSignPackage_ret_some env w url s pkg e w' s' h
    obtain ⟨str, hstr, hlen, hmem⟩ := createNonceStr_spec env 16 (now env s1).2
    rw [hstr] at hn
    simp only [Outcome.ret.injEq, Prod.mk.injEq] at hn
    obtain ⟨rfl, -⟩ := hn
    exact ⟨by simpa using hlen, hmem⟩

/-- C9 on a nonce of five characters and on the package of the first signing. -/
theorem C9_nonce_length_and_alphabet_witness :
    (∃ str s', createNonceStr env7200 5 (startOn emptyDisk) = .ret (str, s') ∧
      (str.length : Int) = 5 ∧ ∀ c ∈ str.toList, c ∈ nonceAlphabet) ∧
    (coldPackage.nonceStr.length = 16 ∧ ∀ c ∈ coldPackage.nonceStr.toList, c ∈ nonceAlphabet) :=
  ⟨(C9_nonce_length_and_alphabet env7200).2.1 5 (startOn emptyDisk) (by decide),
    (C9_nonce_length_and_alphabet env7200).2.2 (NewJssdk "wx123" "sec456") "http://a.b/c?d=1"
      (startOn emptyDisk) coldPackage none coldJssdk coldWorld (by decide)⟩

/-- C3: when the persisted blob is the serialization of a record whose `Expire_time` is later
than the clock reading, `GetAccessToken` returns exactly that record and no error; the only
effect is the storage read, so there is no network call and no storage write. The same holds for
`GetJsapiTicket`, whatever the token record is: the token storage is not read and the token
record in memory is left as it was. -/
theorem C3_valid_record_served_from_cache (env : Env σ) (w : Jssdk) (s : World σ) :
    (∀ (blob : String) (r cur : accessToken),
      (env.storage.getAccessToken s.store).1 = (blob, none) →
      SerializesAccessToken env blob r → w.accessToken = some cur →
      r.Expire_time > int64 (env.unix s.ticks) →
      ∃ w' s', GetAccessToken env w s = ((some r, none), w', s') ∧
        s'.trace = s.trace ++ [Event.readAccessToken] ∧
        netCalls s'.trace = netCalls s.trace ∧ saveCalls s'.trace = saveCalls s.trace) ∧
    (∀ (blob : String) (r cur : jsapiTicket),
      (env.storage.getJsapiTicket s.store).1 = (blob, none) →
      SerializesJsapiTicket env blob r → w.jsspiTicket = some cur →
      r.Expire_time > int64 (env.unix s.ticks) →
      ∃ w' s', GetJsapiTicket env w s = .ret ((some r, none), w', s') ∧
        s'.trace = s.trace ++ [Event.readJsapiTicket] ∧
        netCalls s'.trace = netCalls s.trace ∧ saveCalls s'.trace = saveCalls s.trace ∧
        w'.accessToken = w.accessToken) := by
  constructor
  · intro blob r cur hread hser hcur hvalid
    refine ⟨_, _, GetAccessToken_hit env w s blob cur r hread hser.2.1 hcur (hser.2.2 cur) hvalid,
      rfl, ?_, ?_⟩ <;> simp
  · intro blob r cur hread hser hcur hvalid
    refine ⟨_, _, GetJsapiTicket_hit env w s blob cur r hread hser.2.1 hcur (hser.2.2 cur) hvalid,
      rfl, ?_, ?_, rfl⟩ <;> simp

/-- C3 on a disk with a valid token record and on one with a valid ticket record. -/
theorem C3_valid_record_served_from_cache_witness :
    (∃ w' s', GetAccessToken env7200 (NewJssdk "wx123" "sec456") (startOn tokenDisk)
        = ((some ⟨"TOK1", 7200, 1700009999⟩, none), w', s') ∧
      s'.trace = (startOn tokenDisk).trace ++ [Event.readAccessToken] ∧
      netCalls s'.trace = netCalls (startOn tokenDisk).trace ∧
      saveCalls s'.trace = saveCalls (startOn tokenDisk).trace) ∧
    (∃ w' s', GetJsapiTicket env7200 (NewJssdk "wx123" "sec456") (startOn warmDisk)
        = .ret ((some ⟨"T1", 7200, 1700009999⟩, none), w', s') ∧
      s'.trace = (startOn warmDisk).trace ++ [Event.readJsapiTicket] ∧
      netCalls s'.trace = netCalls (startOn warmDisk).trace ∧
      saveCalls s'.trace = saveCalls (startOn warmDisk).trace ∧
      w'.accessToken = (NewJssdk "wx123" "sec456").accessToken) :=
  ⟨(C3_valid_record_served_from_cache env7200 (NewJssdk "wx123" "sec456")
      (startOn tokenDisk)).1 (tokenBlobAt 1700009999) ⟨"TOK1", 7200, 1700009999⟩ ⟨"", 0, 0⟩
      (by decide) ⟨rfl, by decide, fun _ => rfl⟩ rfl (by decide),
    (C3_valid_record_served_from_cache env7200 (NewJssdk "wx123" "sec456")
      (startOn warmDisk)).2 (ticketBlobAt 1700009999) ⟨"T1", 7200, 1700009999⟩ ⟨"", 0, 0⟩
      (by decide) ⟨rfl, by decide, fun _ => rfl⟩ rfl (by decide)⟩

/-- C6, amended: when the storage read of the token blob (resp. ticket blob) returns an error or
an empty blob, `GetAccessToken` (resp. `GetJsapiTicket`) returns no record, leaves the `Jssdk`
as it was and issues no network call and no write; the error it returns is the one the read
returned, which is nil when the read succeeded with an empty blob. -/
theorem C6_read_failure_short_circuits (env : Env σ) (w : Jssdk) (s : World σ) :
    ((env.storage.getAccessToken s.store).1.2 ≠ none ∨
        (env.storage.getAccessToken s.store).1.1 = "" →
      ∃ s', GetAccessToken env w s
          = ((none, (env.storage.getAccessToken s.store).1.2), w, s') ∧
        s'.trace = s.trace ++ [Event.readAccessToken] ∧
        netCalls s'.trace = netCalls s.trace ∧ saveCalls s'.trace = saveCalls s.trace) ∧
    ((env.storage.getJsapiTicket s.store).1.2 ≠ none ∨
        (env.storage.getJsapiTicket s.store).1.1 = "" →
      ∃ s', GetJsapiTicket env w s
          = .ret ((none, (env.storage.getJsapiTicket s.store).1.2), w, s') ∧
        s'.trace = s.trace ++ [Event.readJsapiTicket] ∧
        netCalls s'.trace = netCalls s.trace ∧ saveCalls s'.trace = saveCalls s.trace) := by
  constructor
  · intro h
    refine ⟨_, GetAccessToken_read_failed env w s h, rfl, ?_, ?_⟩ <;> simp
  · intro h
    refine ⟨_, GetJsapiTicket_read_failed env w s h, rfl, ?_, ?_⟩ <;> simp

/-- C6, amended, on a disk whose reads fail (token) and on one with empty files (ticket). -/
theorem C6_read_failure_short_circuits_witness :
    (∃ s', GetAccessToken env7200 (NewJssdk "wx123" "sec456") (startOn lockedDisk)
        = ((none, (env7200.storage.getAccessToken (startOn lockedDisk).store).1.2),
          NewJssdk "wx123" "sec456", s') ∧
      s'.trace = (startOn lockedDisk).trace ++ [Event.readAccessToken] ∧
      netCalls s'.trace = netCalls (startOn lockedDisk).trace ∧
      saveCalls s'.trace = saveCalls (startOn lockedDisk).trace) ∧
    (∃ s', GetJsapiTicket env7200 (NewJssdk "wx123" "sec456") (startOn blankDisk)
        = .ret ((none, (env7200.storage.getJsapiTicket (startOn blankDisk).store).1.2),
          NewJssdk "wx123" "sec456", s') ∧
      s'.trace = (startOn blankDisk).trace ++ [Event.readJsapiTicket] ∧
      netCalls s'.trace = netCalls (startOn blankDisk).trace ∧
      saveCalls s'.trace = saveCalls (startOn blankDisk).trace) :=
  ⟨(C6_read_failure_short_circuits env7200 (NewJssdk "wx123" "sec456")
      (startOn lockedDisk)).1 (Or.inl (by decide)),
    (C6_read_failure_short_circuits env7200 (NewJssdk "wx123" "sec456")
      (startOn blankDisk)).2 (Or.inr (by decide))⟩

/-- C6 as stated fails: the token file and the ticket file are empty, the reads succeed with an
empty blob, and `GetAccessToken` and `GetJsapiTicket` return a nil error next to the nil
record. -/
theorem C6_counterexample :
    (env7200.storage.getAccessToken (startOn blankDisk).store).1 = ("", none) ∧
    ¬ ((GetAccessToken env7200 (NewJssdk "wx123" "sec456") (startOn blankDisk)).1.2 ≠ none ∧
      (GetAccessToken env7200 (NewJssdk "wx123" "sec456") (startOn blankDisk)).1.1 = none) ∧
    (GetAccessToken env7200 (NewJssdk "wx123" "sec456") (startOn blankDisk)).1 = (none, none) ∧
    (env7200.storage.getJsapiTicket (startOn blankDisk).store).1 = ("", none) ∧
    ∃ w' s', GetJsapiTicket env7200 (NewJssdk "wx123" "sec456") (startOn blankDisk)
      = .ret ((none, none), w', s') := by
  refine ⟨by decide, by decide, by decide, by decide, NewJssdk "wx123" "sec456",
    { store := blankDisk, ticks := 0, trace := [Event.readJsapiTicket] }, by decide⟩

/-- C5: in a refresh whose response `body` parses, to the record `tok2` in memory, with whatever
`expires_in`, `GetAccessToken` returns and keeps in memory the record `tok2` with `Expire_time`
set to `now + 7000` in `int64` arithmetic, `now` being the clock reading taken after the response
was parsed (the second reading of the call); this is `now + 7000` unless the addition overflows.
The `Expires_in` of the record is the one the response declares. The blob handed to storage is
the serialization of that record: the backend's `saveAccessToken` is applied to it on the store
as the read left it, its error is the error returned and its store is the store afterwards; with
no serialization the backend is not called. The same holds for `GetJsapiTicket`, whose `now` is
the reading that follows the nested `GetAccessToken` and whose save acts on the store that call
left. -/
theorem C5_refresh_sets_expiry_now_plus_7000 (env : Env σ) (w : Jssdk) (s : World σ) :
    (∀ (tok1 : accessToken) (body : String) (tok2 : accessToken),
      TokenExpired env w s tok1 →
      env.httpGet (netCalls s.trace) (ACCESS_TOKEN_URL w.appId w.appSecret) = .ok body →
      env.unmarshalAccessToken body tok1 = (tok2, none) →
      ∃ rec e w' s', GetAccessToken env w s = ((some rec, e), w', s') ∧
        w'.accessToken = some rec ∧
        rec.Expire_time = int64 (int64 (env.unix (s.ticks + 1)) + 7000) ∧
        (int64 (env.unix (s.ticks + 1)) + 7000 < 9223372036854775808 →
          rec.Expire_time = int64 (env.unix (s.ticks + 1)) + 7000) ∧
        rec.Expires_in = tok2.Expires_in ∧
        (∀ n, DeclaresTokenExpiresIn env body n → rec.Expires_in = n) ∧
        (∀ b, env.marshalAccessToken rec = .ok b →
          s'.trace = s.trace ++ [Event.readAccessToken,
            Event.httpGet (ACCESS_TOKEN_URL w.appId w.appSecret), Event.saveAccessToken b e] ∧
          env.storage.saveAccessToken b (env.storage.getAccessToken s.store).2
            = (e, s'.store)) ∧
        (∀ m, env.marshalAccessToken rec = .error m →
          saveCalls s'.trace = saveCalls s.trace ∧
          s'.store = (env.storage.getAccessToken s.store).2)) ∧
    (∀ (tk1 : jsapiTicket) (r0 : Option accessToken × Option Error) (w2 : Jssdk)
      (s3 : World σ) (tok : accessToken) (body : String) (tk2 : jsapiTicket),
      TicketExpired env w s tk1 →
      GetAccessToken env { w with jsspiTicket := some tk1 } (afterTicketCheck env s)
        = (r0, w2, s3) →
      w2.accessToken = some tok →
      env.httpGet (netCalls s3.trace) (JSAPI_TICKET_URL tok.Access_token) = .ok body →
      env.unmarshalJsapiTicket body tk1 = (tk2, none) →
      ∃ rec e w' s', GetJsapiTicket env w s = .ret ((some rec, e), w', s') ∧
        w'.jsspiTicket = some rec ∧
        rec.Expire_time = int64 (int64 (env.unix s3.ticks) + 7000) ∧
        (int64 (env.unix s3.ticks) + 7000 < 9223372036854775808 →
          rec.Expire_time = int64 (env.unix s3.ticks) + 7000) ∧
        rec.Expires_in = tk2.Expires_in ∧
        (∀ n, DeclaresTicketExpiresIn env body n → rec.Expires_in = n) ∧
        (∀ b, env.marshalJsapiTicket rec = .ok b →
          s'.trace = s3.trace ++ [Event.httpGet (JSAPI_TICKET_URL tok.Access_token),
            Event.saveJsapiTicket b e] ∧
          env.storage.saveJsapiTicket b s3.store = (e, s'.store)) ∧
        (∀ m, env.marshalJsapiTicket rec = .error m →
          saveCalls s'.trace = saveCalls s3.trace ∧ s'.store = s3.store)) := by
  constructor
  · intro tok1 body tok2 hexp hhttp hresp
    have hrun := GetAccessToken_refresh env w s tok2 ⟨tok1, body, hexp, hhttp, hresp⟩
    have hdecl : ∀ n, DeclaresTokenExpiresIn env body n → tok2.Expires_in = n := fun n hn => by
      have := hn tok1
      rw [hresp] at this
      exact this
    cases hm : env.marshalAccessToken
        { tok2 with Expire_time := int64 (int64 (env.unix (s.ticks + 1)) + 7000) } with
    | error m =>
      rw [hm] at hrun
      exact ⟨_, _, _, _, hrun, rfl, rfl, int64_add_7000 _, rfl, hdecl,
        fun b hb => by rw [hm] at hb; exact absurd hb (by simp), fun _ _ => ⟨by simp, rfl⟩⟩
    | ok b =>
      rw [hm] at hrun
      refine ⟨_, _, _, _, hrun, rfl, rfl, int64_add_7000 _, rfl, hdecl, fun b' hb => ?_,
        fun m hb => by rw [hm] at hb; exact absurd hb (by simp)⟩
      rw [hm] at hb
      cases hb
      exact ⟨rfl, rfl⟩
  · intro tk1 r0 w2 s3 tok body tk2 hexp hin htok hhttp hresp
    have hrun := GetJsapiTicket_refresh_on env w s tk1 r0 w2 s3 tok body tk2 hexp hin htok hhttp
      hresp
    have hdecl : ∀ n, DeclaresTicketExpiresIn env body n → tk2.Expires_in = n := fun n hn => by
      have := hn tk1
      rw [hresp] at this
      exact this
    cases hm : env.marshalJsapiTicket
        { tk2 with Expire_time := int64 (int64 (env.unix s3.ticks) + 7000) } with
    | error m =>
      rw [hm] at hrun
      exact ⟨_, _, _, _, hrun, rfl, rfl, int64_add_7000 _, rfl, hdecl,
        fun b hb => by rw [hm] at hb; exact absurd hb (by simp), fun _ _ => ⟨by simp, rfl⟩⟩
    | ok b =>
      rw [hm] at hrun
      refine ⟨_, _, _, _, hrun, rfl, rfl, int64_add_7000 _, rfl, hdecl, fun b' hb => ?_,
        fun m hb => by rw [hm] at hb; exact absurd hb (by simp)⟩
      rw [hm] at hb
      cases hb
      exact ⟨rfl, rfl⟩

/-- C5 on the scenario of the specification: the token endpoint answers with token `TOK1` and
`expires_in` 7200, which the response declares, and the file written holds the record with
`expire_time` equal to `now + 7000`; and on a ticket refresh next to a valid token, where the
ticket file written holds the ticket stamped likewise. -/
theorem C5_refresh_sets_expiry_now_plus_7000_witness :
    (∃ rec e w' s', GetAccessToken env7200 (NewJssdk "wx123" "sec456") (startOn emptyDisk)
        = ((some rec, e), w', s') ∧
      w'.accessToken = some rec ∧
      rec.Expire_time = int64 (int64 (env7200.unix ((startOn emptyDisk).ticks + 1)) + 7000) ∧
      (int64 (env7200.unix ((startOn emptyDisk).ticks + 1)) + 7000 < 9223372036854775808 →
        rec.Expire_time = int64 (env7200.unix ((startOn emptyDisk).ticks + 1)) + 7000) ∧
      rec.Expires_in = (⟨"TOK1", 7200, 0⟩ : accessToken).Expires_in ∧
      (∀ n, DeclaresTokenExpiresIn env7200 tokenBody7200 n → rec.Expires_in = n) ∧
      (∀ b, env7200.marshalAccessToken rec = .ok b →
        s'.trace = (startOn emptyDisk).trace ++ [Event.readAccessToken,
          Event.httpGet (ACCESS_TOKEN_URL (NewJssdk "wx123" "sec456").appId
            (NewJssdk "wx123" "sec456").appSecret), Event.saveAccessToken b e] ∧
        env7200.storage.saveAccessToken b
            (env7200.storage.getAccessToken (startOn emptyDisk).store).2
          = (e, s'.store)) ∧
      (∀ m, env7200.marshalAccessToken rec = .error m →
        saveCalls s'.trace = saveCalls (startOn emptyDisk).trace ∧
        s'.store = (env7200.storage.getAccessToken (startOn emptyDisk).store).2)) ∧
    DeclaresTokenExpiresIn env7200 tokenBody7200 7200 ∧
    (GetAccessToken env7200 (NewJssdk "wx123" "sec456") (startOn emptyDisk)).2.2.store.files
      = [("access_token.json",
          "\x7b\"access_token\":\"TOK1\",\"expires_in\":7200,\"expire_time\":1700007001\x7d")] ∧
    (∃ rec e w' s', GetJsapiTicket env7200 (NewJssdk "wx123" "sec456") (startOn tokenOnlyDisk)
        = .ret ((some rec, e), w', s') ∧
      w'.jsspiTicket = some rec ∧
      rec.Expire_time = int64 (int64 (env7200.unix tokenOnlyNested.ticks) + 7000) ∧
      (int64 (env7200.unix tokenOnlyNested.ticks) + 7000 < 9223372036854775808 →
        rec.Expire_time = int64 (env7200.unix tokenOnlyNested.ticks) + 7000) ∧
      rec.Expires_in = (⟨"T1", 7200, 0⟩ : jsapiTicket).Expires_in ∧
      (∀ n, DeclaresTicketExpiresIn env7200 ticketBody7200 n → rec.Expires_in = n) ∧
      (∀ b, env7200.marshalJsapiTicket rec = .ok b →
        s'.trace = tokenOnlyNested.trace
          ++ [Event.httpGet
              (JSAPI_TICKET_URL (⟨"TOK1", 7200, 1700009999⟩ : accessToken).Access_token),
            Event.saveJsapiTicket b e] ∧
        env7200.storage.saveJsapiTicket b tokenOnlyNested.store = (e, s'.store)) ∧
      (∀ m, env7200.marshalJsapiTicket rec = .error m →
        saveCalls s'.trace = saveCalls tokenOnlyNested.trace ∧
        s'.store = tokenOnlyNested.store)) ∧
    DeclaresTicketExpiresIn env7200 ticketBody7200 7200 ∧
    (∃ r w' s', GetJsapiTicket env7200 (NewJssdk "wx123" "sec456") (startOn tokenOnlyDisk)
        = .ret (r, w', s') ∧
      s'.store.files
        = [("jsapi_ticket.json",
            "\x7b\"ticket\":\"T1\",\"expires_in\":7200,\"expire_time\":1700007002\x7d"),
          ("access_token.json", tokenBlobAt 1700009999)]) :=
  ⟨(C5_refresh_sets_expiry_now_plus_7000 env7200 (NewJssdk "wx123" "sec456")
      (startOn emptyDisk)).1 ⟨"", 0, 0⟩ tokenBody7200 ⟨"TOK1", 7200, 0⟩
      ⟨"\x7b\x7d", ⟨"", 0, 0⟩, by decide, by decide, rfl, by decide, by decide⟩ rfl
      (by decide),
    fun _ => rfl,
    by decide,
    (C5_refresh_sets_expiry_now_plus_7000 env7200 (NewJssdk "wx123" "sec456")
      (startOn tokenOnlyDisk)).2 ⟨"", 0, 0⟩ (some ⟨"TOK1", 7200, 1700009999⟩, none)
      tokenOnlyJssdk tokenOnlyNested ⟨"TOK1", 7200, 1700009999⟩ ticketBody7200 ⟨"T1", 7200, 0⟩
      ⟨"\x7b\x7d", ⟨"", 0, 0⟩, by decide, by decide, rfl, by decide, by decide⟩
      (by decide) rfl rfl (by decide),
    fun _ => rfl,
    ⟨(some ⟨"T1", 7200, 1700007002⟩, none),
      { accessToken := some ⟨"TOK1", 7200, 1700009999⟩
        jsspiTicket := some ⟨"T1", 7200, 1700007002⟩
        appId := "wx123"
        appSecret := "sec456" },
      { store :=
          { files := [("jsapi_ticket.json", ticketBlobAt 1700007002),
              ("access_token.json", tokenBlobAt 1700009999)]
            readOnly := false }
        ticks := 3
        trace := [Event.readJsapiTicket, Event.readAccessToken,
          Event.httpGet (JSAPI_TICKET_URL "TOK1"),
          Event.saveJsapiTicket (ticketBlobAt 1700007002) none] },
      by decide, by decide⟩⟩

/-- C8, amended: in a refresh whose fetch and parse succeed and whose storage save fails,
`GetAccessToken` returns the save error together with a record, the one the refresh left in
memory: the record decoded from the response over the stored one, with `Expire_time` equal to
`now + 7000` (in `int64` arithmetic). Its token value is the one the response carries when the
response carries one, and the one decoded from storage when the response carries none. The same
holds for `GetJsapiTicket`. -/
theorem C8_save_failure_keeps_fetched_record (env : Env σ) (w : Jssdk) (s : World σ) :
    (∀ (tok1 : accessToken) (body : String) (tok2 : accessToken) (b : String) (err : Error),
      TokenExpired env w s tok1 →
      env.httpGet (netCalls s.trace) (ACCESS_TOKEN_URL w.appId w.appSecret) = .ok body →
      env.unmarshalAccessToken body tok1 = (tok2, none) →
      env.marshalAccessToken
        { tok2 with Expire_time := int64 (int64 (env.unix (s.ticks + 1)) + 7000) } = .ok b →
      (env.storage.saveAccessToken b (env.storage.getAccessToken s.store).2).1 = some err →
      ∃ rec w' s', GetAccessToken env w s = ((some rec, some err), w', s') ∧
        w'.accessToken = some rec ∧
        rec = { tok2 with Expire_time := int64 (int64 (env.unix (s.ticks + 1)) + 7000) } ∧
        (∀ v, CarriesAccessToken env body v → rec.Access_token = v) ∧
        (OmitsAccessToken env body → rec.Access_token = tok1.Access_token) ∧
        rec.Expire_time = int64 (int64 (env.unix (s.ticks + 1)) + 7000) ∧
        (int64 (env.unix (s.ticks + 1)) + 7000 < 9223372036854775808 →
          rec.Expire_time = int64 (env.unix (s.ticks + 1)) + 7000)) ∧
    (∀ (tk1 : jsapiTicket) (r0 : Option accessToken × Option Error) (w2 : Jssdk)
      (s3 : World σ) (tok : accessToken) (body : String) (tk2 : jsapiTicket) (b : String)
      (err : Error),
      TicketExpired env w s tk1 →
      GetAccessToken env { w with jsspiTicket := some tk1 } (afterTicketCheck env s)
        = (r0, w2, s3) →
      w2.accessToken = some tok →
      env.httpGet (netCalls s3.trace) (JSAPI_TICKET_URL tok.Access_token) = .ok body →
      env.unmarshalJsapiTicket body tk1 = (tk2, none) →
      env.marshalJsapiTicket
        { tk2 with Expire_time := int64 (int64 (env.unix s3.ticks) + 7000) } = .ok b →
      (env.storage.saveJsapiTicket b s3.store).1 = some err →
      ∃ rec w' s', GetJsapiTicket env w s = .ret ((some rec, some err), w', s') ∧
        w'.jsspiTicket = some rec ∧
        rec = { tk2 with Expire_time := int64 (int64 (env.unix s3.ticks) + 7000) } ∧
        (∀ v, CarriesJsapiTicket env body v → rec.Jsapi_ticket = v) ∧
        (OmitsJsapiTicket env body → rec.Jsapi_ticket = tk1.Jsapi_ticket) ∧
        rec.Expire_time = int64 (int64 (env.unix s3.ticks) + 7000) ∧
        (int64 (env.unix s3.ticks) + 7000 < 9223372036854775808 →
          rec.Expire_time = int64 (env.unix s3.ticks) + 7000)) := by
  constructor
  · intro tok1 body tok2 b err hexp hhttp hresp hm hsave
    have hrun := GetAccessToken_refresh env w s tok2 ⟨tok1, body, hexp, hhttp, hresp⟩
    rw [hm] at hrun
    simp only [hsave] at hrun
    refine ⟨_, _, _, hrun, rfl, rfl, fun v hv => ?_, fun ho => ?_, rfl, int64_add_7000 _⟩
    · have := hv tok1
      rw [hresp] at this
      exact this
    · have := ho tok1
      rw [hresp] at this
      exact this
  · intro tk1 r0 w2 s3 tok body tk2 b err hexp hin htok hhttp hresp hm hsave
    have hrun := GetJsapiTicket_refresh_on env w s tk1 r0 w2 s3 tok body tk2 hexp hin htok hhttp
      hresp
    rw [hm] at hrun
    simp only [hsave] at hrun
    refine ⟨_, _, _, hrun, rfl, rfl, fun v hv => ?_, fun ho => ?_, rfl, int64_add_7000 _⟩
    · have := hv tk1
      rw [hresp] at this
      exact this
    · have := ho tk1
      rw [hresp] at this
      exact this

/-- C8, amended, on a disk that cannot be written, with responses that carry `TOK1` and `T1`. -/
theorem C8_save_failure_keeps_fetched_record_witness :
    (∃ rec w' s', GetAccessToken env7200 (NewJssdk "wx123" "sec456") (startOn staleLockedDisk)
        = ((some rec, some "open access_token.json: read-only file system"), w', s') ∧
      w'.accessToken = some rec ∧
      rec = { (⟨"TOK1", 7200, 0⟩ : accessToken) with
        Expire_time := int64 (int64 (env7200.unix ((startOn staleLockedDisk).ticks + 1)) + 7000) } ∧
      (∀ v, CarriesAccessToken env7200 tokenBody7200 v → rec.Access_token = v) ∧
      (OmitsAccessToken env7200 tokenBody7200 →
        rec.Access_token = (⟨"", 0, 0⟩ : accessToken).Access_token) ∧
      rec.Expire_time
        = int64 (int64 (env7200.unix ((startOn staleLockedDisk).ticks + 1)) + 7000) ∧
      (int64 (env7200.unix ((startOn staleLockedDisk).ticks + 1)) + 7000 < 9223372036854775808 →
        rec.Expire_time = int64 (env7200.unix ((startOn staleLockedDisk).ticks + 1)) + 7000)) ∧
    CarriesAccessToken env7200 tokenBody7200 "TOK1" ∧
    (∃ rec w' s', GetJsapiTicket env7200 (NewJssdk "wx123" "sec456") (startOn staleLockedDisk)
        = .ret ((some rec, some "open jsapi_ticket.json: read-only file system"), w', s') ∧
      w'.jsspiTicket = some rec ∧
      rec = { (⟨"T1", 7200, 0⟩ : jsapiTicket) with
        Expire_time := int64 (int64 (env7200.unix staleLockedNested.ticks) + 7000) } ∧
      (∀ v, CarriesJsapiTicket env7200 ticketBody7200 v → rec.Jsapi_ticket = v) ∧
      (OmitsJsapiTicket env7200 ticketBody7200 →
        rec.Jsapi_ticket = (⟨"", 0, 0⟩ : jsapiTicket).Jsapi_ticket) ∧
      rec.Expire_time = int64 (int64 (env7200.unix staleLockedNested.ticks) + 7000) ∧
      (int64 (env7200.unix staleLockedNested.ticks) + 7000 < 9223372036854775808 →
        rec.Expire_time = int64 (env7200.unix staleLockedNested.ticks) + 7000)) ∧
    CarriesJsapiTicket env7200 ticketBody7200 "T1" :=
  ⟨(C8_save_failure_keeps_fetched_record env7200 (NewJssdk "wx123" "sec456")
      (startOn staleLockedDisk)).1 ⟨"", 0, 0⟩ tokenBody7200 ⟨"TOK1", 7200, 0⟩
      (tokenBlobAt 1700007001) "open access_token.json: read-only file system"
      ⟨"\x7b\x7d", ⟨"", 0, 0⟩, by decide, by decide, rfl, by decide, by decide⟩ rfl
      (by decide) rfl (by decide),
    fun _ => rfl,
    (C8_save_failure_keeps_fetched_record env7200 (NewJssdk "wx123" "sec456")
      (startOn staleLockedDisk)).2 ⟨"", 0, 0⟩
      (some ⟨"TOK1", 7200, 1700007002⟩, some "open access_token.json: read-only file system")
      staleLockedJssdk staleLockedNested ⟨"TOK1", 7200, 1700007002⟩ ticketBody7200
      ⟨"T1", 7200, 0⟩ (ticketBlobAt 1700007003) "open jsapi_ticket.json: read-only file system"
      ⟨"\x7b\x7d", ⟨"", 0, 0⟩, by decide, by decide, rfl, by decide, by decide⟩
      (by decide) rfl rfl (by decide) rfl (by decide),
    fun _ => rfl⟩

/-- C8 as stated fails: the stored token `OLD` has expired, the token endpoint answers with an
error code and no token, which parses, and the save fails on a disk that cannot be written.
`GetAccessToken` returns the save error with a record whose token value is `OLD`, the value
decoded from storage, not a value from the response. -/
theorem C8_counterexample :
    TokenRefresh envErrcode (NewJssdk "wx123" "sec456") (startOn oldLockedDisk)
      ⟨"OLD", 7200, 1600000000⟩ ∧
    envErrcode.httpGet 0 (ACCESS_TOKEN_URL "wx123" "sec456") = .ok errcodeBody ∧
    OmitsAccessToken envErrcode errcodeBody ∧
    (∀ v, ¬ CarriesAccessToken envErrcode errcodeBody v) ∧
    (envErrcode.storage.getAccessToken oldLockedDisk).1
      = ("\x7b\"access_token\":\"OLD\",\"expires_in\":7200,\"expire_time\":1600000000\x7d",
        none) ∧
    (GetAccessToken envErrcode (NewJssdk "wx123" "sec456") (startOn oldLockedDisk)).1
      = (some ⟨"OLD", 7200, 1700007001⟩,
        some "open access_token.json: read-only file system") := by
  refine ⟨⟨⟨"OLD", 7200, 1600000000⟩, errcodeBody,
      ⟨"\x7b\"access_token\":\"OLD\",\"expires_in\":7200,\"expire_time\":1600000000\x7d",
        ⟨"", 0, 0⟩, by decide, by decide, rfl, by decide, by decide⟩, rfl, by decide⟩,
    rfl, fun _ => rfl, fun v hv => ?_, by decide, by decide⟩
  have h1 := hv ⟨"a", 0, 0⟩
  have h2 := hv ⟨"b", 0, 0⟩
  have h3 : (envErrcode.unmarshalAccessToken errcodeBody ⟨"a", 0, 0⟩).1.Access_token = "a" := rfl
  have h4 : (envErrcode.unmarshalAccessToken errcodeBody ⟨"b", 0, 0⟩).1.Access_token = "b" := rfl
  rw [h3] at h1
  rw [h4] at h2
  rw [← h1] at h2
  exact absurd h2 (by decide)

/-- C10, amended: for every record produced by a refresh in `GetAccessToken` or
`GetJsapiTicket`, and for every remote-declared `expires_in`, the record's `Expire_time` equals
`fetch_time + 7000` (the addition not overflowing `int64`), `fetch_time` being the clock reading
taken after the response was parsed; so it equals `fetch_time + Expires_in - 200` exactly when
the record's `Expires_in` is 7200. -/
theorem C10_expiry_is_fetch_time_plus_7000 (env : Env σ) (w : Jssdk) (s : World σ) :
    (∀ tok2 : accessToken, TokenRefresh env w s tok2 →
      int64 (env.unix (s.ticks + 1)) + 7000 < 9223372036854775808 →
      ∃ rec e w' s', GetAccessToken env w s = ((some rec, e), w', s') ∧
        rec.Expires_in = tok2.Expires_in ∧
        rec.Expire_time = int64 (env.unix (s.ticks + 1)) + 7000 ∧
        (rec.Expire_time = int64 (env.unix (s.ticks + 1)) + rec.Expires_in - 200 ↔
          rec.Expires_in = 7200)) ∧
    (∀ (s3 : World σ) (tk2 : jsapiTicket), TicketRefresh env w s s3 tk2 →
      int64 (env.unix s3.ticks) + 7000 < 9223372036854775808 →
      ∃ rec e w' s', GetJsapiTicket env w s = .ret ((some rec, e), w', s') ∧
        rec.Expires_in = tk2.Expires_in ∧
        rec.Expire_time = int64 (env.unix s3.ticks) + 7000 ∧
        (rec.Expire_time = int64 (env.unix s3.ticks) + rec.Expires_in - 200 ↔
          rec.Expires_in = 7200)) := by
  constructor
  · intro tok2 h hno
    have hrun := GetAccessToken_refresh env w s tok2 h
    have h7 := int64_add_7000 _ hno
    cases hm : env.marshalAccessToken
        { tok2 with Expire_time := int64 (int64 (env.unix (s.ticks + 1)) + 7000) } with
    | error m =>
      rw [hm] at hrun
      exact ⟨_, _, _, _, hrun, rfl, h7, by simp only [h7]; omega⟩
    | ok b =>
      rw [hm] at hrun
      exact ⟨_, _, _, _, hrun, rfl, h7, by simp only [h7]; omega⟩
  · intro s3 tk2 h hno
    obtain ⟨w2, url, hrun⟩ := GetJsapiTicket_refresh env w s s3 tk2 h
    have h7 := int64_add_7000 _ hno
    cases hm : env.marshalJsapiTicket
        { tk2 with Expire_time := int64 (int64 (env.unix s3.ticks) + 7000) } with
    | error m =>
      rw [hm] at hrun
      exact ⟨_, _, _, _, hrun, rfl, h7, by simp only [h7]; omega⟩
    | ok b =>
      rw [hm] at hrun
      exact ⟨_, _, _, _, hrun, rfl, h7, by simp only [h7]; omega⟩

/-- C10, amended, on a platform that declares a lifetime of 1800 seconds. -/
theorem C10_expiry_is_fetch_time_plus_7000_witness :
    (∃ rec e w' s', GetAccessToken env1800 (NewJssdk "wx123" "sec456") (startOn emptyDisk)
        = ((some rec, e), w', s') ∧
      rec.Expires_in = (⟨"TOK1", 1800, 0⟩ : accessToken).Expires_in ∧
      rec.Expire_time = int64 (env1800.unix ((startOn emptyDisk).ticks + 1)) + 7000 ∧
      (rec.Expire_time
          = int64 (env1800.unix ((startOn emptyDisk).ticks + 1)) + rec.Expires_in - 200 ↔
        rec.Expires_in = 7200)) ∧
    (∃ rec e w' s', GetJsapiTicket env1800 (NewJssdk "wx123" "sec456") (startOn tokenOnlyDisk)
        = .ret ((some rec, e), w', s') ∧
      rec.Expires_in = (⟨"T1", 1800, 0⟩ : jsapiTicket).Expires_in ∧
      rec.Expire_time = int64 (env1800.unix tokenOnlyNested.ticks) + 7000 ∧
      (rec.Expire_time = int64 (env1800.unix tokenOnlyNested.ticks) + rec.Expires_in - 200 ↔
        rec.Expires_in = 7200)) :=
  ⟨(C10_expiry_is_fetch_time_plus_7000 env1800 (NewJssdk "wx123" "sec456")
      (startOn emptyDisk)).1 ⟨"TOK1", 1800, 0⟩
      ⟨⟨"", 0, 0⟩, "\x7b\"access_token\":\"TOK1\",\"expires_in\":1800\x7d",
        ⟨"\x7b\x7d", ⟨"", 0, 0⟩, by decide, by decide, rfl, by decide, by decide⟩, rfl,
        by decide⟩
      (by decide),
    (C10_expiry_is_fetch_time_plus_7000 env1800 (NewJssdk "wx123" "sec456")
      (startOn tokenOnlyDisk)).2 tokenOnlyNested ⟨"T1", 1800, 0⟩
      ⟨⟨"", 0, 0⟩, (some ⟨"TOK1", 7200, 1700009999⟩, none), tokenOnlyJssdk,
        ⟨"TOK1", 7200, 1700009999⟩, "\x7b\"ticket\":\"T1\",\"expires_in\":1800\x7d",
        ⟨"\x7b\x7d", ⟨"", 0, 0⟩, by decide, by decide, rfl, by decide, by decide⟩,
        by decide, rfl, rfl, by decide⟩
      (by decide)⟩

/-- C10 as stated fails: the token endpoint declares `expires_in` 1800, the response is parsed at
clock reading 1700000001, and the refreshed record has `Expire_time` 1700007001, which is not
`1700000001 + 1800 - 200`; likewise for the ticket, refreshed at reading 1700000002. -/
theorem C10_counterexample :
    (∃ rec, (GetAccessToken env1800 (NewJssdk "wx123" "sec456") (startOn emptyDisk)).1
        = (some rec, none) ∧
      rec.Expires_in = 1800 ∧ int64 (env1800.unix 1) = 1700000001 ∧
      rec.Expire_time ≠ int64 (env1800.unix 1) + rec.Expires_in - 200) ∧
    (∃ rec w' s', GetJsapiTicket env1800 (NewJssdk "wx123" "sec456") (startOn tokenOnlyDisk)
        = .ret ((some rec, none), w', s') ∧
      rec.Expires_in = 1800 ∧ int64 (env1800.unix 2) = 1700000002 ∧
      rec.Expire_time ≠ int64 (env1800.unix 2) + rec.Expires_in - 200) := by
  refine ⟨⟨⟨"TOK1", 1800, 1700007001⟩, by decide, rfl, by decide, by decide⟩,
    ⟨"T1", 1800, 1700007002⟩,
    { accessToken := some ⟨"TOK1", 7200, 1700009999⟩
      jsspiTicket := some ⟨"T1", 1800, 1700007002⟩
      appId := "wx123"
      appSecret := "sec456" },
    { store :=
        { files := [("jsapi_ticket.json",
              "\x7b\"ticket\":\"T1\",\"expires_in\":1800,\"expire_time\":1700007002\x7d"),
            ("access_token.json", tokenBlobAt 1700009999)]
          readOnly := false }
      ticks := 3
      trace := [Event.readJsapiTicket, Event.readAccessToken,
        Event.httpGet (JSAPI_TICKET_URL "TOK1"),
        Event.saveJsapiTicket
          "\x7b\"ticket\":\"T1\",\"expires_in\":1800,\"expire_time\":1700007002\x7d" none] },
    by decide, rfl, by decide, by decide⟩

/-- C7 at the failing input: a `Jssdk` fresh from `NewJssdk` on an empty disk holds no access
token (its token record is the zero record), the stored ticket is absent, and the token endpoint
cannot be reached, so the nested `GetAccessToken` fails and returns no record. `GetJsapiTicket`
does not propagate that failure: it requests the ticket endpoint with the empty token as
`access_token` and returns the ticket it gets with a nil error. -/
theorem C7_failing_input :
    (NewJssdk "wx123" "sec456").accessToken = some ⟨"", 0, 0⟩ ∧
    TicketExpired envTokenDown (NewJssdk "wx123" "sec456") (startOn emptyDisk) ⟨"", 0, 0⟩ ∧
    (GetAccessToken envTokenDown { NewJssdk "wx123" "sec456" with jsspiTicket := some ⟨"", 0, 0⟩ }
        (afterTicketCheck envTokenDown (startOn emptyDisk))).1
      = (none, some "dial tcp: connection refused") ∧
    GetJsapiTicket envTokenDown (NewJssdk "wx123" "sec456") (startOn emptyDisk)
      = .ret ((some ⟨"T1", 7200, 1700007002⟩, none),
        { accessToken := some ⟨"", 0, 0⟩
          jsspiTicket := some ⟨"T1", 7200, 1700007002⟩
          appId := "wx123"
          appSecret := "sec456" },
        { store :=
            { files := [("jsapi_ticket.json", ticketBlobAt 1700007002),
                ("access_token.json", "\x7b\x7d")]
              readOnly := false }
          ticks := 3
          trace := [Event.readJsapiTicket, Event.readAccessToken,
            Event.httpGet (ACCESS_TOKEN_URL "wx123" "sec456"),
            Event.httpGet (JSAPI_TICKET_URL ""),
            Event.saveJsapiTicket (ticketBlobAt 1700007002) none] }) ∧
    JSAPI_TICKET_URL ""
      = "https://api.weixin.qq.com/cgi-bin/ticket/getticket?type=jsapi&access_token=" := by
  refine ⟨rfl, ⟨"\x7b\x7d", ⟨"", 0, 0⟩, by decide, by decide, rfl, by decide, by decide⟩,
    by decide, by decide, by decide⟩

/-- C4, amended: when the stored record is expired or absent, `GetAccessToken` issues exactly
one network call, to the token endpoint. `GetJsapiTicket`, with a token pointer that is not nil,
issues exactly one network call of its own, to the ticket endpoint, after the nested
`GetAccessToken`, which issues none or one: one or two network calls in all. Whenever either of
them returns a record together with a nil error, the serialization of that record has been
written to storage, the write returning nil, as its last effect. -/
theorem C4_expired_record_is_refetched (env : Env σ) (w : Jssdk) (s : World σ) :
    (∀ tok1 : accessToken, TokenExpired env w s tok1 →
      ∃ r w' s' rest, GetAccessToken env w s = (r, w', s') ∧
        s'.trace = s.trace ++ Event.readAccessToken ::
          Event.httpGet (ACCESS_TOKEN_URL w.appId w.appSecret) :: rest ∧
        netCalls rest = 0 ∧ netCalls s'.trace = netCalls s.trace + 1 ∧
        ∀ rec, r = (some rec, none) →
          ∃ b, env.marshalAccessToken rec = .ok b ∧
            env.storage.saveAccessToken b (env.storage.getAccessToken s.store).2
              = (none, s'.store) ∧
            rest = [Event.saveAccessToken b none]) ∧
    (∀ (tk1 : jsapiTicket) (tok0 : accessToken), TicketExpired env w s tk1 →
      w.accessToken = some tok0 →
      ∃ r0 w2 s3 tok r w' s' rest,
        GetAccessToken env { w with jsspiTicket := some tk1 } (afterTicketCheck env s)
          = (r0, w2, s3) ∧
        (netCalls s3.trace = netCalls s.trace ∨ netCalls s3.trace = netCalls s.trace + 1) ∧
        w2.accessToken = some tok ∧
        GetJsapiTicket env w s = .ret (r, w', s') ∧
        s'.trace = s3.trace ++ Event.httpGet (JSAPI_TICKET_URL tok.Access_token) :: rest ∧
        netCalls rest = 0 ∧ netCalls s'.trace = netCalls s3.trace + 1 ∧
        (netCalls s'.trace = netCalls s.trace + 1 ∨ netCalls s'.trace = netCalls s.trace + 2) ∧
        ∀ rec, r = (some rec, none) →
          ∃ b, env.marshalJsapiTicket rec = .ok b ∧
            env.storage.saveJsapiTicket b s3.store = (none, s'.store) ∧
            rest = [Event.saveJsapiTicket b none]) := by
  constructor
  · intro tok1 h
    obtain ⟨r, w', s', rest, hrun, htr, hrest, hsaved⟩ :=
      GetAccessToken_expired_effects env w s tok1 h
    exact ⟨r, w', s', rest, hrun, htr, hrest, by rw [htr]; simp [hrest], hsaved⟩
  · intro tk1 tok0 h hw
    have hfr := GetAccessToken_frame env { w with jsspiTicket := some tk1 }
      (afterTicketCheck env s)
    rcases hg : GetAccessToken env { w with jsspiTicket := some tk1 } (afterTicketCheck env s)
      with ⟨r0, w2, s3⟩
    rw [hg] at hfr
    obtain ⟨-, -, -, hnil, ext, hext, hnet, -⟩ := hfr
    simp only at hnil hext
    have hw2 : w2.accessToken ≠ none :=
      fun h0 => by rw [hnil.1 h0] at hw; exact absurd hw (by simp)
    obtain ⟨tok, htok⟩ := Option.ne_none_iff_exists'.1 hw2
    obtain ⟨r, w', s', rest, hrun, htr, hrest, hsaved⟩ :=
      GetJsapiTicket_expired_effects env w s tk1 h r0 w2 s3 tok hg htok
    have h3 : netCalls s3.trace = netCalls s.trace ∨ netCalls s3.trace = netCalls s.trace + 1 := by
      rw [hext]
      simp only [afterTicketCheck, netCalls_append, netCalls_cons_readJsapiTicket, netCalls_nil,
        netCalls_cons_readAccessToken]
      rcases hnet with h0 | ⟨h1, -⟩
      · left; omega
      · right; omega
    have h4 : netCalls s'.trace = netCalls s3.trace + 1 := by
      rw [htr]; simp [hrest]
    refine ⟨r0, w2, s3, tok, r, w', s', rest, rfl, h3, htok, hrun, htr, hrest, h4, ?_, hsaved⟩
    rcases h3 with h3 | h3
    · left; omega
    · right; omega

/-- C4, amended, on the first use with an empty disk. -/
theorem C4_expired_record_is_refetched_witness :
    (∃ r w' s' rest, GetAccessToken env7200 (NewJssdk "wx123" "sec456") (startOn emptyDisk)
        = (r, w', s') ∧
      s'.trace = (startOn emptyDisk).trace ++ Event.readAccessToken ::
        Event.httpGet (ACCESS_TOKEN_URL (NewJssdk "wx123" "sec456").appId
          (NewJssdk "wx123" "sec456").appSecret) :: rest ∧
      netCalls rest = 0 ∧ netCalls s'.trace = netCalls (startOn emptyDisk).trace + 1 ∧
      ∀ rec, r = (some rec, none) →
        ∃ b, env7200.marshalAccessToken rec = .ok b ∧
          env7200.storage.saveAccessToken b
              (env7200.storage.getAccessToken (startOn emptyDisk).store).2
            = (none, s'.store) ∧
          rest = [Event.saveAccessToken b none]) ∧
    (∃ r0 w2 s3 tok r w' s' rest,
      GetAccessToken env7200 { NewJssdk "wx123" "sec456" with jsspiTicket := some ⟨"", 0, 0⟩ }
          (afterTicketCheck env7200 (startOn emptyDisk))
        = (r0, w2, s3) ∧
      (netCalls s3.trace = netCalls (startOn emptyDisk).trace ∨
        netCalls s3.trace = netCalls (startOn emptyDisk).trace + 1) ∧
      w2.accessToken = some tok ∧
      GetJsapiTicket env7200 (NewJssdk "wx123" "sec456") (startOn emptyDisk)
        = .ret (r, w', s') ∧
      s'.trace = s3.trace ++ Event.httpGet (JSAPI_TICKET_URL tok.Access_token) :: rest ∧
      netCalls rest = 0 ∧ netCalls s'.trace = netCalls s3.trace + 1 ∧
      (netCalls s'.trace = netCalls (startOn emptyDisk).trace + 1 ∨
        netCalls s'.trace = netCalls (startOn emptyDisk).trace + 2) ∧
      ∀ rec, r = (some rec, none) →
        ∃ b, env7200.marshalJsapiTicket rec = .ok b ∧
          env7200.storage.saveJsapiTicket b s3.store = (none, s'.store) ∧
          rest = [Event.saveJsapiTicket b none]) :=
  ⟨(C4_expired_record_is_refetched env7200 (NewJssdk "wx123" "sec456") (startOn emptyDisk)).1
      ⟨"", 0, 0⟩ ⟨"\x7b\x7d", ⟨"", 0, 0⟩, by decide, by decide, rfl, by decide, by decide⟩,
    (C4_expired_record_is_refetched env7200 (NewJssdk "wx123" "sec456") (startOn emptyDisk)).2
      ⟨"", 0, 0⟩ ⟨"", 0, 0⟩
      ⟨"\x7b\x7d", ⟨"", 0, 0⟩, by decide, by decide, rfl, by decide, by decide⟩ rfl⟩

/-- C4 as stated fails twice. On the first use with an empty disk the ticket record is absent,
and `GetJsapiTicket` issues two network calls, not one. On a disk that cannot be written the
token record is absent, and `GetAccessToken` returns a record that has not been written: the
storage is as before and still gives the empty object. -/
theorem C4_counterexample :
    (TicketExpired env7200 (NewJssdk "wx123" "sec456") (startOn emptyDisk) ⟨"", 0, 0⟩ ∧
      GetJsapiTicket env7200 (NewJssdk "wx123" "sec456") (startOn emptyDisk)
        = .ret ((some ⟨"T1", 7200, 1700007003⟩, none), coldJssdk,
          { coldWorld with ticks := 4 }) ∧
      netCalls ({ coldWorld with ticks := 4 } : World Disk).trace = 2) ∧
    (TokenExpired env7200 (NewJssdk "wx123" "sec456") (startOn staleLockedDisk) ⟨"", 0, 0⟩ ∧
      (GetAccessToken env7200 (NewJssdk "wx123" "sec456") (startOn staleLockedDisk)).1.1
        = some ⟨"TOK1", 7200, 1700007001⟩ ∧
      (GetAccessToken env7200 (NewJssdk "wx123" "sec456") (startOn staleLockedDisk)).2.2.store
        = staleLockedDisk ∧
      (env7200.storage.getAccessToken staleLockedDisk).1 = ("\x7b\x7d", none)) :=
  ⟨⟨⟨"\x7b\x7d", ⟨"", 0, 0⟩, by decide, by decide, rfl, by decide, by decide⟩, by decide,
      by decide⟩,
    ⟨"\x7b\x7d", ⟨"", 0, 0⟩, by decide, by decide, rfl, by decide, by decide⟩, by decide,
    by decide, by decide⟩

end claims

end jssdk
